import Mathlib

set_option linter.unusedVariables false
set_option maxRecDepth 100000

/-!
Shallow embedding of the checked parts of the `drf-openapi-tester` repository:

* `src/django_swagger_tester/configuration.py` — `MiddlewareSettings` and
  `SwaggerTesterSettings` construction and validation;
* `src/openapi_tester/static/get_schema.py` — `fetch_from_dir`;
* the path resolver, case checker and schema comparator, which are exercised by
  `src/tests/test_utils.py` and described in `spec.md` but whose defining modules
  are not part of the provided sources; those are modelled from the spec.

Python runtime values reaching the configuration code are modelled by `PyVal`;
raised exceptions by `PyErr` inside `Except`.
-/

/-- A Python value, restricted to the shapes the configuration code inspects.
`callable` models a Python function value (a `types.FunctionType`) that accepts any
arguments and returns `None` without side effects, such as the source's own
`lambda: None`; `cls` models a class object, recording whether it subclasses
`_LoaderBase` and whether its loader-specific `validation` hook succeeds (the
loaders module is outside the provided sources). -/
inductive PyVal where
  | none
  | bool (b : Bool)
  | int (n : Int)
  | str (s : String)
  | list (xs : List PyVal)
  | callable (tag : String)
  | cls (isLoaderSubclass : Bool) (validationOk : Bool)
  | dict (entries : List (String × PyVal))

/-- A raised Python exception: the library raises `django.core.exceptions.ImproperlyConfigured`
everywhere in `configuration.py`; the `TypeError` from calling a shadowed method's
non-callable value and the `AttributeError`/`TypeError` from `setattr` on read-only
descriptors are kept distinct. -/
inductive PyErr where
  | improperlyConfigured (msg : String)
  | attributeError (msg : String)
  | typeError (msg : String)

/-- Last-occurrence lookup in a settings dictionary, mirroring how repeated
`setattr` calls over `dict.items()` leave the last value in place. -/
def getSetting : List (String × PyVal) → String → Option PyVal
  | [], _ => Option.none
  | (k, v) :: rest, key =>
    match getSetting rest key with
    | Option.some w => Option.some w
    | Option.none => if k = key then Option.some v else Option.none

/-- First-occurrence lookup, used for the shadowing instance attributes recorded by
the overwrite loops (the most recent `setattr` is prepended). -/
def lookupVal : List (String × PyVal) → String → Option PyVal
  | [], _ => Option.none
  | (k, v) :: rest, key => if k = key then Option.some v else lookupVal rest key

def isBoolV : PyVal → Bool
  | .bool _ => true
  | _ => false

def isStrV : PyVal → Bool
  | .str _ => true
  | _ => false

def isListV : PyVal → Bool
  | .list _ => true
  | _ => false

def isCallableV : PyVal → Bool
  | .callable _ => true
  | _ => false

def isFalseV : PyVal → Bool
  | .bool false => true
  | _ => false

def isTrueV : PyVal → Bool
  | .bool true => true
  | _ => false

/-! ### Attribute names `hasattr` answers for beyond the data attributes.

`hasattr(self, setting)` in the overwrite loops is true not only for the data
attributes set earlier in `__init__` but for every class attribute: the methods the
settings classes define and the names inherited from `object` (CPython 3.6-3.8, the
interpreters this Django package supports). `setattr` then shadows the class
attribute with an instance attribute — except for the read-only descriptors
`__class__`, `__dict__` and `__weakref__`, where `setattr` itself raises. -/

/-- Names inherited from `object` that `setattr` can shadow on the instance. -/
def writableDunders : List String :=
  ["__delattr__", "__dir__", "__doc__", "__eq__", "__format__", "__ge__",
   "__getattribute__", "__gt__", "__hash__", "__init__", "__init_subclass__",
   "__le__", "__lt__", "__module__", "__ne__", "__new__", "__reduce__",
   "__reduce_ex__", "__repr__", "__setattr__", "__sizeof__", "__str__",
   "__subclasshook__"]

/-- Names inherited from `object` whose descriptors reject instance `setattr`. -/
def nonWritableDunders : List String := ["__class__", "__dict__", "__weakref__"]

/-- The methods `MiddlewareSettings` defines. -/
def mwMethodNames : List String :=
  ["validate_and_set_logger", "validate_validate_request_body", "validate_bool",
   "validate_exempt_urls", "get_logger"]

/-- Keys the middleware overwrite loop accepts although they shadow a class
attribute instead of overwriting one of the five settings. -/
def mwClobberable : List String := mwMethodNames ++ writableDunders

/-- Every non-setting name `hasattr` is true for on a `MiddlewareSettings` instance
during the overwrite loop. -/
def mwExtraAttrs : List String := mwClobberable ++ nonWritableDunders

/-! ### MiddlewareSettings (configuration.py, lines 12-109) -/

/-- The attribute state of a `MiddlewareSettings` instance.  `LOGGER` records the
upper-cased log level whose logger method was selected by `get_logger`; `CLOBBERS`
records the instance attributes the overwrite loop `setattr`'d over class
attributes, most recent first. -/
structure MwState where
  LOG_LEVEL : PyVal
  REJECT_INVALID_REQUEST_BODIES : PyVal
  VALIDATE_RESPONSE : PyVal
  VALIDATE_REQUEST_BODY : PyVal
  VALIDATION_EXEMPT_URLS : PyVal
  LOGGER : String
  CLOBBERS : List (String × PyVal)

/-- Defaults set at the top of `MiddlewareSettings.__init__`. -/
def mwDefaults : MwState :=
  { LOG_LEVEL := PyVal.str "ERROR"
    REJECT_INVALID_REQUEST_BODIES := PyVal.bool false
    VALIDATE_RESPONSE := PyVal.bool true
    VALIDATE_REQUEST_BODY := PyVal.bool true
    VALIDATION_EXEMPT_URLS := PyVal.list []
    LOGGER := ""
    CLOBBERS := [] }

/-- The five recognized middleware setting names. -/
def mwKeys : List String :=
  ["LOG_LEVEL", "REJECT_INVALID_REQUEST_BODIES", "VALIDATE_RESPONSE",
   "VALIDATE_REQUEST_BODY", "VALIDATION_EXEMPT_URLS"]

def excessMwMsg (k : String) : String :=
  "Received excess middleware setting, `" ++ k ++
    "`, for SWAGGER_TESTER. Please correct or remove this from the middleware settings."

def notCallableMsg (name : String) : String :=
  "the value shadowing " ++ name ++ " is not callable"

/-- The overwrite loop of `MiddlewareSettings.__init__`.  A key naming one of the
five settings overwrites it; a key naming any other existing attribute (a method or
a writable dunder) is `setattr`'d, shadowing that attribute; a key naming a
read-only descriptor makes `setattr` itself raise; any remaining key raises the
excess-setting error. -/
def applyMwOverrides : List (String × PyVal) → MwState → Except PyErr MwState
  | [], st => Except.ok st
  | (k, v) :: rest, st =>
    if k = "LOG_LEVEL" then applyMwOverrides rest { st with LOG_LEVEL := v }
    else if k = "REJECT_INVALID_REQUEST_BODIES" then
      applyMwOverrides rest { st with REJECT_INVALID_REQUEST_BODIES := v }
    else if k = "VALIDATE_RESPONSE" then applyMwOverrides rest { st with VALIDATE_RESPONSE := v }
    else if k = "VALIDATE_REQUEST_BODY" then
      applyMwOverrides rest { st with VALIDATE_REQUEST_BODY := v }
    else if k = "VALIDATION_EXEMPT_URLS" then
      applyMwOverrides rest { st with VALIDATION_EXEMPT_URLS := v }
    else if k ∈ mwClobberable then
      applyMwOverrides rest { st with CLOBBERS := (k, v) :: st.CLOBBERS }
    else if k = "__class__" ∨ k = "__dict__" then
      Except.error (PyErr.typeError ("the " ++ k ++ " attribute cannot be set to this value"))
    else if k = "__weakref__" then
      Except.error (PyErr.attributeError "attribute __weakref__ is not writable")
    else Except.error (PyErr.improperlyConfigured (excessMwMsg k))

/-- The log levels accepted by `get_logger`. -/
def logLevels : List String :=
  ["DEBUG", "INFO", "WARNING", "ERROR", "EXCEPTION", "CRITICAL"]

/-- The `str.upper()` call applied to the log level before dispatch in `get_logger`. -/
def strUpper (s : String) : String := String.mk (s.data.map Char.toUpper)

def logLevelTypeMsg : String :=
  "The SWAGGER_TESTER middleware setting `LOG_LEVEL` must be a string value"

def invalidLogLevelMsg (level : String) : String :=
  "`" ++ level ++ "` is not a valid log level. Please change the `LOG_LEVEL` setting in your " ++
    "`SWAGGER_TESTER` settings to one of `DEBUG`, `INFO`, `WARNING`, `ERROR`, `EXCEPTION`, or `CRITICAL`."

def boolSettingMsg (name : String) : String :=
  "The SWAGGER_TESTER middleware setting `" ++ name ++ "` must be a boolean value"

def exemptUrlsMsg : String :=
  "Failed to compile the passed VALIDATION_EXEMPT_URLS as regular expressions"

def rejectCombinationMsg : String :=
  "REJECT_INVALID_REQUEST_BODIES middleware setting cannot be True if VALIDATE_REQUEST_BODY is False."

/-- Whether `re.compile` succeeds on one element drawn from the exempt-URLs value:
non-strings make `compile` raise a `TypeError`, which `validate_exempt_urls` catches.
`regexOk` is the oracle deciding which pattern strings compile. -/
def pyReCompileOk (regexOk : String → Bool) : PyVal → Bool
  | .str s => regexOk s
  | _ => false

/-- `validate_exempt_urls` iterates the setting and compiles every element inside a
`try` block; any exception becomes `ImproperlyConfigured`.  Iterating a string yields
its characters and iterating a dict yields its keys; non-iterables raise at once. -/
def exemptUrlsOk (regexOk : String → Bool) : PyVal → Bool
  | .list xs => xs.all (pyReCompileOk regexOk)
  | .str s => s.data.all (fun c => regexOk (String.singleton c))
  | .dict m => m.all (fun kv => regexOk kv.1)
  | _ => false

/-- `self.validate_validate_request_body()`: when the method name was shadowed by an
instance attribute, a function value is called instead of the method (doing
nothing) and any other value raises a `TypeError`; otherwise the compatibility of
`VALIDATE_REQUEST_BODY` with `REJECT_INVALID_REQUEST_BODIES` is checked. -/
def middlewareValidateCombo (st : MwState) : Except PyErr MwState :=
  match lookupVal st.CLOBBERS "validate_validate_request_body" with
  | Option.some (PyVal.callable _) => Except.ok st
  | Option.some _ =>
    Except.error (PyErr.typeError (notCallableMsg "validate_validate_request_body"))
  | Option.none =>
    if isFalseV st.VALIDATE_REQUEST_BODY && isTrueV st.REJECT_INVALID_REQUEST_BODIES then
      Except.error (PyErr.improperlyConfigured rejectCombinationMsg)
    else Except.ok st

/-- `self.validate_exempt_urls(...)`, shadowing-aware as above. -/
def middlewareValidateExempt (regexOk : String → Bool) (st : MwState) : Except PyErr MwState :=
  match lookupVal st.CLOBBERS "validate_exempt_urls" with
  | Option.some (PyVal.callable _) => middlewareValidateCombo st
  | Option.some _ => Except.error (PyErr.typeError (notCallableMsg "validate_exempt_urls"))
  | Option.none =>
    if !exemptUrlsOk regexOk st.VALIDATION_EXEMPT_URLS then
      Except.error (PyErr.improperlyConfigured exemptUrlsMsg)
    else middlewareValidateCombo st

/-- The three `self.validate_bool(...)` calls: one shadowing value affects all three. -/
def middlewareValidateBools (regexOk : String → Bool) (st : MwState) : Except PyErr MwState :=
  match lookupVal st.CLOBBERS "validate_bool" with
  | Option.some (PyVal.callable _) => middlewareValidateExempt regexOk st
  | Option.some _ => Except.error (PyErr.typeError (notCallableMsg "validate_bool"))
  | Option.none =>
    if !isBoolV st.REJECT_INVALID_REQUEST_BODIES then
      Except.error (PyErr.improperlyConfigured (boolSettingMsg "REJECT_INVALID_REQUEST_BODIES"))
    else if !isBoolV st.VALIDATE_REQUEST_BODY then
      Except.error (PyErr.improperlyConfigured (boolSettingMsg "VALIDATE_REQUEST_BODY"))
    else if !isBoolV st.VALIDATE_RESPONSE then
      Except.error (PyErr.improperlyConfigured (boolSettingMsg "VALIDATE_RESPONSE"))
    else middlewareValidateExempt regexOk st

/-- The validation calls at the end of `MiddlewareSettings.__init__` in source
order; `validate_and_set_logger` itself calls `self.get_logger`, so both names are
consulted for shadowing instance attributes. -/
def middlewareValidate (regexOk : String → Bool) (st : MwState) : Except PyErr MwState :=
  match lookupVal st.CLOBBERS "validate_and_set_logger" with
  | Option.some (PyVal.callable _) => middlewareValidateBools regexOk st
  | Option.some _ => Except.error (PyErr.typeError (notCallableMsg "validate_and_set_logger"))
  | Option.none =>
    match st.LOG_LEVEL with
    | PyVal.str s =>
      match lookupVal st.CLOBBERS "get_logger" with
      | Option.some (PyVal.callable _) => middlewareValidateBools regexOk { st with LOGGER := "" }
      | Option.some _ => Except.error (PyErr.typeError (notCallableMsg "get_logger"))
      | Option.none =>
        if logLevels.contains (strUpper s) then
          middlewareValidateBools regexOk { st with LOGGER := strUpper s }
        else Except.error (PyErr.improperlyConfigured (invalidLogLevelMsg (strUpper s)))
    | _ => Except.error (PyErr.improperlyConfigured logLevelTypeMsg)

/-- `MiddlewareSettings.__init__`, as a function of the middleware settings dictionary. -/
def middlewareInit (regexOk : String → Bool) (m : List (String × PyVal)) : Except PyErr MwState :=
  match applyMwOverrides m mwDefaults with
  | Except.error e => Except.error e
  | Except.ok st => middlewareValidate regexOk st

example :
    middlewareInit (fun _ => true) [] =
      Except.ok { mwDefaults with LOGGER := "ERROR" } := by rfl

example :
    middlewareInit (fun _ => true)
      [("VALIDATE_REQUEST_BODY", PyVal.bool false),
       ("REJECT_INVALID_REQUEST_BODIES", PyVal.bool true)] =
      Except.error (PyErr.improperlyConfigured rejectCombinationMsg) := by rfl

/-! ### SwaggerTesterSettings (configuration.py, lines 112-244) -/

/-- The attributes that exist before the overwrite loop of
`SwaggerTesterSettings.__init__` runs, plus the instance attributes the loop
`setattr`'d over class attributes (most recent first). -/
structure SwBase where
  SCHEMA_LOADER : PyVal
  CASE_TESTER : PyVal
  CAMEL_CASE_PARSER : PyVal
  CASE_WHITELIST : PyVal
  CLOBBERS : List (String × PyVal)

/-- Defaults from `SwaggerTesterSettings.__init__`: the case tester defaults to a no-op
lambda expression. -/
def swDefaults : SwBase :=
  { SCHEMA_LOADER := PyVal.none
    CASE_TESTER := PyVal.callable "lambda"
    CAMEL_CASE_PARSER := PyVal.bool false
    CASE_WHITELIST := PyVal.list []
    CLOBBERS := [] }

/-- The methods `SwaggerTesterSettings` defines. -/
def swMethodNames : List String :=
  ["get_package_settings", "validate_case_tester_setting",
   "validate_camel_case_parser_setting", "set_and_validate_schema_loader",
   "validate_case_whitelist"]

/-- Keys the package overwrite loop `setattr`s although they shadow a class
attribute instead of overwriting one of the four data attributes. -/
def swClobberable : List String := swMethodNames ++ writableDunders

/-- Every non-data-attribute name `hasattr` is true for on a
`SwaggerTesterSettings` instance during the overwrite loop. -/
def swExtraAttrs : List String := swClobberable ++ nonWritableDunders

/-- The overwrite loop of `SwaggerTesterSettings.__init__`: items matching an
existing attribute are `setattr`'d — overwriting a data attribute or shadowing a
method or dunder — read-only descriptors make `setattr` raise, and all other names
are silently ignored (they may be loader kwargs). -/
def applySwOverrides : List (String × PyVal) → SwBase → Except PyErr SwBase
  | [], st => Except.ok st
  | (k, v) :: rest, st =>
    if k = "SCHEMA_LOADER" then applySwOverrides rest { st with SCHEMA_LOADER := v }
    else if k = "CASE_TESTER" then applySwOverrides rest { st with CASE_TESTER := v }
    else if k = "CAMEL_CASE_PARSER" then applySwOverrides rest { st with CAMEL_CASE_PARSER := v }
    else if k = "CASE_WHITELIST" then applySwOverrides rest { st with CASE_WHITELIST := v }
    else if k ∈ swClobberable then
      applySwOverrides rest { st with CLOBBERS := (k, v) :: st.CLOBBERS }
    else if k = "__class__" ∨ k = "__dict__" then
      Except.error (PyErr.typeError ("the " ++ k ++ " attribute cannot be set to this value"))
    else if k = "__weakref__" then
      Except.error (PyErr.attributeError "attribute __weakref__ is not writable")
    else applySwOverrides rest st

/-- The state of a fully constructed `SwaggerTesterSettings` object. -/
structure SwaggerSettings where
  SCHEMA_LOADER : PyVal
  CASE_TESTER : PyVal
  CAMEL_CASE_PARSER : PyVal
  CASE_WHITELIST : PyVal
  MIDDLEWARE : MwState

/-- The process environment the validation consults: whether the
`djangorestframework_camel_case` package is importable, and which regular
expression patterns `re.compile` accepts. -/
structure Env where
  camelCaseInstalled : Bool
  regexOk : String → Bool

/-- `swagger_tester_settings.get('MIDDLEWARE', {})`, with `None` also replaced by `{}`.
Any other non-dict value makes the `.items()` call inside `MiddlewareSettings.__init__`
raise an `AttributeError` (not an `ImproperlyConfigured`). -/
def getMiddlewareDict : Option PyVal → Except PyErr (List (String × PyVal))
  | Option.none => Except.ok []
  | Option.some PyVal.none => Except.ok []
  | Option.some (PyVal.dict m) => Except.ok m
  | Option.some _ =>
    Except.error (PyErr.attributeError "middleware settings object has no attribute items")

def loaderMissingMsg : String :=
  "SCHEMA_LOADER is missing from your SWAGGER_TESTER settings, and is required" ++
    ". Please pass a loader class from django_swagger_tester.schema_loaders."

def loaderNotClassMsg : String :=
  "SCHEMA_LOADER must be a class. Please pass a loader class from django_swagger_tester.schema_loaders."

def loaderSubclassMsg : String :=
  "The supplied LOADER_CLASS must inherit django_swagger_tester.schema_loaders._LoaderBase" ++
    ". Please pass a loader class from django_swagger_tester.schema_loaders."

def loaderValidationMsg : String :=
  "the loader class validation hook rejected the SWAGGER_TESTER settings"

/-- `set_and_validate_schema_loader`: requires a class subclassing `_LoaderBase`, then
instantiates it and runs its settings validation hook (modelled by the `validationOk`
flag, as the loaders module is outside the provided sources). -/
def validateLoader : PyVal → Except PyErr Unit
  | PyVal.none => Except.error (PyErr.improperlyConfigured loaderMissingMsg)
  | PyVal.cls true true => Except.ok ()
  | PyVal.cls true false => Except.error (PyErr.improperlyConfigured loaderValidationMsg)
  | PyVal.cls false _ => Except.error (PyErr.improperlyConfigured loaderSubclassMsg)
  | _ => Except.error (PyErr.improperlyConfigured loaderNotClassMsg)

def caseTesterMsg : String :=
  "The django-swagger-tester CASE_TESTER setting is misspecified. " ++
    "Please pass a case tester callable from django_swagger_tester.case_testers, " ++
    "make your own, or pass `None` to skip case validation."

/-- `validate_case_tester_setting`: a function is kept, `None` is replaced by a no-op
lambda expression, and anything else raises. -/
def resolveCaseTester : PyVal → Except PyErr PyVal
  | PyVal.callable t => Except.ok (PyVal.callable t)
  | PyVal.none => Except.ok (PyVal.callable "lambda")
  | _ => Except.error (PyErr.improperlyConfigured caseTesterMsg)

def camelCaseTypeMsg : String := "`CAMEL_CASE_PARSER` needs to be True or False"

def camelCaseImportMsg : String :=
  "The package `djangorestframework_camel_case` is not installed, " ++
    "and is required to enable camel case parsing."

/-- `validate_camel_case_parser_setting`: must be a boolean; when `True` the camel case
parser package must be importable (when `False` only a warning may be logged). -/
def validateCamel (installed : Bool) : PyVal → Except PyErr Unit
  | PyVal.bool true =>
    if installed then Except.ok () else Except.error (PyErr.improperlyConfigured camelCaseImportMsg)
  | PyVal.bool false => Except.ok ()
  | _ => Except.error (PyErr.improperlyConfigured camelCaseTypeMsg)

def whitelistListMsg : String := "The CASE_WHITELIST setting needs to be a list of strings"

def whitelistElemMsg : String := "The CASE_WHITELIST setting list can only contain strings"

/-- `validate_case_whitelist`: `None` becomes the empty list, a non-list raises, and a
list may only contain strings. -/
def resolveWhitelist : PyVal → Except PyErr PyVal
  | PyVal.none => Except.ok (PyVal.list [])
  | PyVal.list xs =>
    if xs.all isStrV then Except.ok (PyVal.list xs)
    else Except.error (PyErr.improperlyConfigured whitelistElemMsg)
  | _ => Except.error (PyErr.improperlyConfigured whitelistListMsg)

/-- `self.set_and_validate_schema_loader(...)`, shadowing-aware: a shadowing function
value is called in the method's place (validating nothing), a shadowing non-callable
raises a `TypeError`. -/
def swLoaderStep (base : SwBase) : Except PyErr Unit :=
  match lookupVal base.CLOBBERS "set_and_validate_schema_loader" with
  | Option.some (PyVal.callable _) => Except.ok ()
  | Option.some _ => Except.error (PyErr.typeError (notCallableMsg "set_and_validate_schema_loader"))
  | Option.none => validateLoader base.SCHEMA_LOADER

/-- `self.validate_case_tester_setting()`, shadowing-aware: when shadowed by a
function value, `CASE_TESTER` is left exactly as the loop set it. -/
def swTesterStep (base : SwBase) : Except PyErr PyVal :=
  match lookupVal base.CLOBBERS "validate_case_tester_setting" with
  | Option.some (PyVal.callable _) => Except.ok base.CASE_TESTER
  | Option.some _ => Except.error (PyErr.typeError (notCallableMsg "validate_case_tester_setting"))
  | Option.none => resolveCaseTester base.CASE_TESTER

/-- `self.validate_camel_case_parser_setting()`, shadowing-aware. -/
def swCamelStep (env : Env) (base : SwBase) : Except PyErr Unit :=
  match lookupVal base.CLOBBERS "validate_camel_case_parser_setting" with
  | Option.some (PyVal.callable _) => Except.ok ()
  | Option.some _ =>
    Except.error (PyErr.typeError (notCallableMsg "validate_camel_case_parser_setting"))
  | Option.none => validateCamel env.camelCaseInstalled base.CAMEL_CASE_PARSER

/-- `self.validate_case_whitelist()`, shadowing-aware: when shadowed by a function
value, `CASE_WHITELIST` is left exactly as the loop set it. -/
def swWhitelistStep (base : SwBase) : Except PyErr PyVal :=
  match lookupVal base.CLOBBERS "validate_case_whitelist" with
  | Option.some (PyVal.callable _) => Except.ok base.CASE_WHITELIST
  | Option.some _ => Except.error (PyErr.typeError (notCallableMsg "validate_case_whitelist"))
  | Option.none => resolveWhitelist base.CASE_WHITELIST

/-- The body of `SwaggerTesterSettings.__init__` after the overwrite loop, in source
order: middleware construction, schema loader validation, case tester resolution,
camel case parser validation, and case whitelist resolution. -/
def swaggerInitCore (env : Env) (base : SwBase) (mwVal : Option PyVal) :
    Except PyErr SwaggerSettings :=
  match getMiddlewareDict mwVal with
  | Except.error e => Except.error e
  | Except.ok m =>
    match middlewareInit env.regexOk m with
    | Except.error e => Except.error e
    | Except.ok mw =>
      match swLoaderStep base with
      | Except.error e => Except.error e
      | Except.ok _ =>
        match swTesterStep base with
        | Except.error e => Except.error e
        | Except.ok tester =>
          match swCamelStep env base with
          | Except.error e => Except.error e
          | Except.ok _ =>
            match swWhitelistStep base with
            | Except.error e => Except.error e
            | Except.ok wl =>
              Except.ok
                { SCHEMA_LOADER := base.SCHEMA_LOADER
                  CASE_TESTER := tester
                  CAMEL_CASE_PARSER := base.CAMEL_CASE_PARSER
                  CASE_WHITELIST := wl
                  MIDDLEWARE := mw }

/-- `SwaggerTesterSettings.__init__` as a function of the `SWAGGER_TESTER` settings
dictionary already fetched from the Django settings module. -/
def swaggerInit (env : Env) (d : List (String × PyVal)) : Except PyErr SwaggerSettings :=
  match applySwOverrides d swDefaults with
  | Except.error e => Except.error e
  | Except.ok base => swaggerInitCore env base (getSetting d "MIDDLEWARE")

def envAllOk : Env := { camelCaseInstalled := false, regexOk := fun _ => true }

example :
    swaggerInit envAllOk [("SCHEMA_LOADER", PyVal.cls true true)] =
      Except.ok
        { SCHEMA_LOADER := PyVal.cls true true
          CASE_TESTER := PyVal.callable "lambda"
          CAMEL_CASE_PARSER := PyVal.bool false
          CASE_WHITELIST := PyVal.list []
          MIDDLEWARE := { mwDefaults with LOGGER := "ERROR" } } := by rfl

example :
    swaggerInit envAllOk [] = Except.error (PyErr.improperlyConfigured loaderMissingMsg) := by rfl

/-! ### Helper lemmas about the overwrite loops -/

theorem getSetting_getD_cons (k : String) (v : PyVal) (rest : List (String × PyVal))
    (key : String) (dflt : PyVal) :
    (getSetting ((k, v) :: rest) key).getD dflt =
      (getSetting rest key).getD (if k = key then v else dflt) := by
  simp only [getSetting]
  cases getSetting rest key with
  | none => by_cases h : k = key <;> simp [h]
  | some w => simp

theorem applyMwOverrides_ok (m : List (String × PyVal)) (st st' : MwState)
    (h : applyMwOverrides m st = Except.ok st') :
    st'.LOG_LEVEL = (getSetting m "LOG_LEVEL").getD st.LOG_LEVEL ∧
    st'.REJECT_INVALID_REQUEST_BODIES =
      (getSetting m "REJECT_INVALID_REQUEST_BODIES").getD st.REJECT_INVALID_REQUEST_BODIES ∧
    st'.VALIDATE_RESPONSE = (getSetting m "VALIDATE_RESPONSE").getD st.VALIDATE_RESPONSE ∧
    st'.VALIDATE_REQUEST_BODY =
      (getSetting m "VALIDATE_REQUEST_BODY").getD st.VALIDATE_REQUEST_BODY ∧
    st'.VALIDATION_EXEMPT_URLS =
      (getSetting m "VALIDATION_EXEMPT_URLS").getD st.VALIDATION_EXEMPT_URLS := by
  induction m generalizing st with
  | nil =>
    simp only [applyMwOverrides] at h
    injection h with h
    subst h
    simp [getSetting]
  | cons kv rest ih =>
    obtain ⟨k, v⟩ := kv
    simp only [applyMwOverrides] at h
    rw [getSetting_getD_cons, getSetting_getD_cons, getSetting_getD_cons,
      getSetting_getD_cons, getSetting_getD_cons]
    split_ifs at h with h1 h2 h3 h4 h5 h6
    · have := ih _ h; simp_all
    · have := ih _ h; simp_all
    · have := ih _ h; simp_all
    · have := ih _ h; simp_all
    · have := ih _ h; simp_all
    · have := ih _ h; simp_all

theorem applyMwOverrides_clobbers (m : List (String × PyVal)) (st st' : MwState)
    (hclean : ∀ kv ∈ m, kv.1 ∉ mwExtraAttrs)
    (h : applyMwOverrides m st = Except.ok st') : st'.CLOBBERS = st.CLOBBERS := by
  induction m generalizing st with
  | nil =>
    simp only [applyMwOverrides] at h
    injection h with h
    subst h
    rfl
  | cons kv rest ih =>
    obtain ⟨k, v⟩ := kv
    have hk := hclean (k, v) (List.mem_cons_self _ _)
    have hrest : ∀ kv ∈ rest, kv.1 ∉ mwExtraAttrs :=
      fun kv hkv => hclean kv (List.mem_cons_of_mem _ hkv)
    simp only [applyMwOverrides] at h
    split_ifs at h with h1 h2 h3 h4 h5 h6
    · simpa using ih _ hrest h
    · simpa using ih _ hrest h
    · simpa using ih _ hrest h
    · simpa using ih _ hrest h
    · simpa using ih _ hrest h
    · exact absurd (List.mem_append_left nonWritableDunders h6) hk

theorem applyMwOverrides_error_kind (m : List (String × PyVal)) (st : MwState) (e : PyErr)
    (hclean : ∀ kv ∈ m, kv.1 ∉ mwExtraAttrs)
    (h : applyMwOverrides m st = Except.error e) :
    ∃ s, e = PyErr.improperlyConfigured s := by
  induction m generalizing st with
  | nil => simp [applyMwOverrides] at h
  | cons kv rest ih =>
    obtain ⟨k, v⟩ := kv
    have hk := hclean (k, v) (List.mem_cons_self _ _)
    have hrest : ∀ kv ∈ rest, kv.1 ∉ mwExtraAttrs :=
      fun kv hkv => hclean kv (List.mem_cons_of_mem _ hkv)
    simp only [applyMwOverrides] at h
    split_ifs at h with h1 h2 h3 h4 h5 h6 h7 h8
    · exact ih _ hrest h
    · exact ih _ hrest h
    · exact ih _ hrest h
    · exact ih _ hrest h
    · exact ih _ hrest h
    · exact ih _ hrest h
    · exfalso
      rcases h7 with rfl | rfl
      · exact hk (show "__class__" ∈ mwExtraAttrs by decide)
      · exact hk (show "__dict__" ∈ mwExtraAttrs by decide)
    · exfalso
      subst h8
      exact hk (show "__weakref__" ∈ mwExtraAttrs by decide)
    · injection h with h
      exact ⟨_, h.symm⟩

/-- The first dictionary key that names neither a middleware setting nor an
existing class attribute the loop would shadow: the key the excess-setting error
is raised about. -/
def firstUnknownKey : List (String × PyVal) → Option String
  | [] => Option.none
  | (k, _) :: rest =>
    if k = "LOG_LEVEL" then firstUnknownKey rest
    else if k = "REJECT_INVALID_REQUEST_BODIES" then firstUnknownKey rest
    else if k = "VALIDATE_RESPONSE" then firstUnknownKey rest
    else if k = "VALIDATE_REQUEST_BODY" then firstUnknownKey rest
    else if k = "VALIDATION_EXEMPT_URLS" then firstUnknownKey rest
    else if k ∈ mwClobberable then firstUnknownKey rest
    else Option.some k

theorem applyMwOverrides_unknown (m : List (String × PyVal)) (st : MwState) (k : String)
    (hnw : ∀ kv ∈ m, kv.1 ∉ nonWritableDunders)
    (h : firstUnknownKey m = Option.some k) :
    applyMwOverrides m st = Except.error (PyErr.improperlyConfigured (excessMwMsg k)) := by
  induction m generalizing st with
  | nil => simp [firstUnknownKey] at h
  | cons kv rest ih =>
    obtain ⟨k', v⟩ := kv
    have hk' := hnw (k', v) (List.mem_cons_self _ _)
    have hrest : ∀ kv ∈ rest, kv.1 ∉ nonWritableDunders :=
      fun kv hkv => hnw kv (List.mem_cons_of_mem _ hkv)
    have hnc : ¬(k' = "__class__" ∨ k' = "__dict__") := by
      rintro (rfl | rfl)
      · exact hk' (show "__class__" ∈ nonWritableDunders by decide)
      · exact hk' (show "__dict__" ∈ nonWritableDunders by decide)
    have hnwr : k' ≠ "__weakref__" := by
      rintro rfl
      exact hk' (show "__weakref__" ∈ nonWritableDunders by decide)
    simp only [firstUnknownKey] at h
    simp only [applyMwOverrides]
    split_ifs at h with c1 c2 c3 c4 c5 c6
    · simp only [if_pos c1]
      exact ih _ hrest h
    · simp only [if_neg c1, if_pos c2]
      exact ih _ hrest h
    · simp only [if_neg c1, if_neg c2, if_pos c3]
      exact ih _ hrest h
    · simp only [if_neg c1, if_neg c2, if_neg c3, if_pos c4]
      exact ih _ hrest h
    · simp only [if_neg c1, if_neg c2, if_neg c3, if_neg c4, if_pos c5]
      exact ih _ hrest h
    · simp only [if_neg c1, if_neg c2, if_neg c3, if_neg c4, if_neg c5, if_pos c6]
      exact ih _ hrest h
    · injection h with h
      subst h
      simp [c1, c2, c3, c4, c5, c6, hnc, hnwr]

theorem mem_unknown_firstUnknownKey (m : List (String × PyVal)) (k : String) (v : PyVal)
    (hmem : (k, v) ∈ m) (hks : k ∉ mwKeys) (hka : k ∉ mwExtraAttrs) :
    ∃ kk, firstUnknownKey m = Option.some kk ∧ kk ∉ mwKeys ∧ kk ∉ mwClobberable ∧
      ∃ vv, (kk, vv) ∈ m := by
  have hclob : k ∉ mwClobberable := fun hc => hka (List.mem_append_left _ hc)
  simp only [mwKeys, List.mem_cons, List.mem_singleton, List.not_mem_nil] at hks
  push_neg at hks
  obtain ⟨h1, h2, h3, h4, h5, -⟩ := hks
  induction m with
  | nil => simp at hmem
  | cons kv rest ih =>
    obtain ⟨k', v'⟩ := kv
    rcases List.mem_cons.mp hmem with hhd | htl
    · injection hhd with hk' hv'
      subst hk'
      refine ⟨k, ?_, ?_, hclob, v, by simp [hv']⟩
      · simp [firstUnknownKey, h1, h2, h3, h4, h5, hclob]
      · simp [mwKeys, h1, h2, h3, h4, h5]
    · by_cases c1 : k' = "LOG_LEVEL"
      · obtain ⟨kk, hkk, hkk2, hkk3, vv, hvv⟩ := ih htl
        exact ⟨kk, by simp [firstUnknownKey, c1, hkk], hkk2, hkk3, vv,
          List.mem_cons_of_mem _ hvv⟩
      · by_cases c2 : k' = "REJECT_INVALID_REQUEST_BODIES"
        · obtain ⟨kk, hkk, hkk2, hkk3, vv, hvv⟩ := ih htl
          exact ⟨kk, by simp [firstUnknownKey, c1, c2, hkk], hkk2, hkk3, vv,
            List.mem_cons_of_mem _ hvv⟩
        · by_cases c3 : k' = "VALIDATE_RESPONSE"
          · obtain ⟨kk, hkk, hkk2, hkk3, vv, hvv⟩ := ih htl
            exact ⟨kk, by simp [firstUnknownKey, c1, c2, c3, hkk], hkk2, hkk3, vv,
              List.mem_cons_of_mem _ hvv⟩
          · by_cases c4 : k' = "VALIDATE_REQUEST_BODY"
            · obtain ⟨kk, hkk, hkk2, hkk3, vv, hvv⟩ := ih htl
              exact ⟨kk, by simp [firstUnknownKey, c1, c2, c3, c4, hkk], hkk2, hkk3, vv,
                List.mem_cons_of_mem _ hvv⟩
            · by_cases c5 : k' = "VALIDATION_EXEMPT_URLS"
              · obtain ⟨kk, hkk, hkk2, hkk3, vv, hvv⟩ := ih htl
                exact ⟨kk, by simp [firstUnknownKey, c1, c2, c3, c4, c5, hkk], hkk2, hkk3, vv,
                  List.mem_cons_of_mem _ hvv⟩
              · by_cases c6 : k' ∈ mwClobberable
                · obtain ⟨kk, hkk, hkk2, hkk3, vv, hvv⟩ := ih htl
                  exact ⟨kk, by simp [firstUnknownKey, c1, c2, c3, c4, c5, c6, hkk], hkk2,
                    hkk3, vv, List.mem_cons_of_mem _ hvv⟩
                · refine ⟨k', ?_, ?_, c6, v', List.mem_cons_self _ _⟩
                  · simp [firstUnknownKey, c1, c2, c3, c4, c5, c6]
                  · simp [mwKeys, c1, c2, c3, c4, c5]

theorem middlewareValidateCombo_clean (st : MwState) (hCL : st.CLOBBERS = []) :
    middlewareValidateCombo st =
      if isFalseV st.VALIDATE_REQUEST_BODY && isTrueV st.REJECT_INVALID_REQUEST_BODIES then
        Except.error (PyErr.improperlyConfigured rejectCombinationMsg)
      else Except.ok st := by
  unfold middlewareValidateCombo
  rw [hCL]
  rfl

theorem middlewareValidateExempt_clean (regexOk : String → Bool) (st : MwState)
    (hCL : st.CLOBBERS = []) :
    middlewareValidateExempt regexOk st =
      if !exemptUrlsOk regexOk st.VALIDATION_EXEMPT_URLS then
        Except.error (PyErr.improperlyConfigured exemptUrlsMsg)
      else middlewareValidateCombo st := by
  unfold middlewareValidateExempt
  rw [hCL]
  rfl

theorem middlewareValidateBools_clean (regexOk : String → Bool) (st : MwState)
    (hCL : st.CLOBBERS = []) :
    middlewareValidateBools regexOk st =
      if !isBoolV st.REJECT_INVALID_REQUEST_BODIES then
        Except.error (PyErr.improperlyConfigured (boolSettingMsg "REJECT_INVALID_REQUEST_BODIES"))
      else if !isBoolV st.VALIDATE_REQUEST_BODY then
        Except.error (PyErr.improperlyConfigured (boolSettingMsg "VALIDATE_REQUEST_BODY"))
      else if !isBoolV st.VALIDATE_RESPONSE then
        Except.error (PyErr.improperlyConfigured (boolSettingMsg "VALIDATE_RESPONSE"))
      else middlewareValidateExempt regexOk st := by
  unfold middlewareValidateBools
  rw [hCL]
  rfl

theorem middlewareValidate_clean (regexOk : String → Bool) (st : MwState)
    (hCL : st.CLOBBERS = []) :
    middlewareValidate regexOk st =
      match st.LOG_LEVEL with
      | PyVal.str s =>
        if logLevels.contains (strUpper s) then
          middlewareValidateBools regexOk { st with LOGGER := strUpper s }
        else Except.error (PyErr.improperlyConfigured (invalidLogLevelMsg (strUpper s)))
      | _ => Except.error (PyErr.improperlyConfigured logLevelTypeMsg) := by
  unfold middlewareValidate
  rw [hCL]
  rfl

theorem middlewareInit_ok (regexOk : String → Bool) (m : List (String × PyVal)) (mw : MwState)
    (hclean : ∀ kv ∈ m, kv.1 ∉ mwExtraAttrs)
    (h : middlewareInit regexOk m = Except.ok mw) :
    ∃ st s, applyMwOverrides m mwDefaults = Except.ok st ∧
      st.LOG_LEVEL = PyVal.str s ∧
      logLevels.contains (strUpper s) = true ∧
      isBoolV st.REJECT_INVALID_REQUEST_BODIES = true ∧
      isBoolV st.VALIDATE_REQUEST_BODY = true ∧
      isBoolV st.VALIDATE_RESPONSE = true ∧
      exemptUrlsOk regexOk st.VALIDATION_EXEMPT_URLS = true ∧
      (isFalseV st.VALIDATE_REQUEST_BODY && isTrueV st.REJECT_INVALID_REQUEST_BODIES) = false ∧
      mw = { st with LOGGER := strUpper s } := by
  unfold middlewareInit at h
  split at h
  · simp at h
  · rename_i st hst
    have hCL : st.CLOBBERS = [] := applyMwOverrides_clobbers m mwDefaults st hclean hst
    rw [middlewareValidate_clean regexOk st hCL] at h
    split at h
    · rename_i s hs
      split_ifs at h with c1
      · rw [middlewareValidateBools_clean regexOk { st with LOGGER := strUpper s } hCL] at h
        split_ifs at h with c2 c3 c4
        rw [middlewareValidateExempt_clean regexOk { st with LOGGER := strUpper s } hCL] at h
        split_ifs at h with c5
        rw [middlewareValidateCombo_clean { st with LOGGER := strUpper s } hCL] at h
        split_ifs at h with c6
        simp only [Bool.not_eq_true', Bool.not_eq_false] at c2 c3 c4 c5
        injection h with h
        exact ⟨st, s, hst, hs, by simpa using c1, c2, c3, c4, by simpa using c5,
          by simpa using c6, h.symm⟩
    · simp at h

theorem middlewareInit_error_kind (regexOk : String → Bool) (m : List (String × PyVal))
    (e : PyErr) (hclean : ∀ kv ∈ m, kv.1 ∉ mwExtraAttrs)
    (h : middlewareInit regexOk m = Except.error e) :
    ∃ s, e = PyErr.improperlyConfigured s := by
  unfold middlewareInit at h
  split at h
  · rename_i e' he
    injection h with h
    subst h
    exact applyMwOverrides_error_kind m mwDefaults e' hclean he
  · rename_i st hst
    have hCL : st.CLOBBERS = [] := applyMwOverrides_clobbers m mwDefaults st hclean hst
    rw [middlewareValidate_clean regexOk st hCL] at h
    split at h
    · rename_i s hs
      split_ifs at h with c1
      · rw [middlewareValidateBools_clean regexOk { st with LOGGER := strUpper s } hCL] at h
        split_ifs at h with c2 c3 c4
        · injection h with h; exact ⟨_, h.symm⟩
        · injection h with h; exact ⟨_, h.symm⟩
        · injection h with h; exact ⟨_, h.symm⟩
        · rw [middlewareValidateExempt_clean regexOk { st with LOGGER := strUpper s } hCL] at h
          split_ifs at h with c5
          · injection h with h; exact ⟨_, h.symm⟩
          · rw [middlewareValidateCombo_clean { st with LOGGER := strUpper s } hCL] at h
            split_ifs at h with c6
            injection h with h
            exact ⟨_, h.symm⟩
      · injection h with h; exact ⟨_, h.symm⟩
    · injection h with h; exact ⟨_, h.symm⟩

theorem resolveCaseTester_ok (v t : PyVal) (h : resolveCaseTester v = Except.ok t) :
    isCallableV t = true ∧ (v = PyVal.none → t = PyVal.callable "lambda") ∧
      (v ≠ PyVal.none → t = v) := by
  cases v <;> simp_all [resolveCaseTester, isCallableV] <;> simp [h.symm]

theorem resolveWhitelist_ok (v w : PyVal) (h : resolveWhitelist v = Except.ok w) :
    (∃ xs, w = PyVal.list xs ∧ xs.all isStrV = true) ∧
      (v = PyVal.none → w = PyVal.list []) ∧ (v ≠ PyVal.none → w = v) := by
  cases v <;> simp only [resolveWhitelist] at h
  case none =>
    injection h with h
    subst h
    exact ⟨⟨[], rfl, rfl⟩, fun _ => rfl, fun hne => absurd rfl hne⟩
  case list xs =>
    split_ifs at h with hall
    injection h with h
    subst h
    exact ⟨⟨xs, rfl, hall⟩, fun hv => PyVal.noConfusion hv, fun _ => rfl⟩
  all_goals exact absurd h (by simp)

theorem validateCamel_ok_bool (installed : Bool) (v : PyVal)
    (h : validateCamel installed v = Except.ok ()) : isBoolV v = true := by
  cases v <;> simp_all [validateCamel, isBoolV]

theorem validateLoader_ok (v : PyVal) (h : validateLoader v = Except.ok ()) :
    v = PyVal.cls true true := by
  cases v <;> simp_all [validateLoader]
  rename_i a b
  cases a <;> cases b <;> simp_all [validateLoader]

theorem validateLoader_error_kind (v : PyVal) (e : PyErr)
    (h : validateLoader v = Except.error e) : ∃ s, e = PyErr.improperlyConfigured s := by
  cases v with
  | cls a b => cases a <;> cases b <;> simp [validateLoader] at h <;> exact ⟨_, h.symm⟩
  | none => simp [validateLoader] at h; exact ⟨_, h.symm⟩
  | bool b => simp [validateLoader] at h; exact ⟨_, h.symm⟩
  | int n => simp [validateLoader] at h; exact ⟨_, h.symm⟩
  | str s => simp [validateLoader] at h; exact ⟨_, h.symm⟩
  | list xs => simp [validateLoader] at h; exact ⟨_, h.symm⟩
  | callable t => simp [validateLoader] at h; exact ⟨_, h.symm⟩
  | dict m => simp [validateLoader] at h; exact ⟨_, h.symm⟩

theorem resolveCaseTester_error_kind (v : PyVal) (e : PyErr)
    (h : resolveCaseTester v = Except.error e) : ∃ s, e = PyErr.improperlyConfigured s := by
  cases v <;> simp [resolveCaseTester] at h <;> exact ⟨_, h.symm⟩

theorem validateCamel_error_kind (installed : Bool) (v : PyVal) (e : PyErr)
    (h : validateCamel installed v = Except.error e) : ∃ s, e = PyErr.improperlyConfigured s := by
  cases v with
  | bool b =>
    cases b with
    | true =>
      simp only [validateCamel] at h
      split_ifs at h <;> (injection h with h; try exact ⟨_, h.symm⟩)
    | false => simp [validateCamel] at h
  | none => simp [validateCamel] at h; exact ⟨_, h.symm⟩
  | int n => simp [validateCamel] at h; exact ⟨_, h.symm⟩
  | str s => simp [validateCamel] at h; exact ⟨_, h.symm⟩
  | list xs => simp [validateCamel] at h; exact ⟨_, h.symm⟩
  | callable t => simp [validateCamel] at h; exact ⟨_, h.symm⟩
  | cls a b => simp [validateCamel] at h; exact ⟨_, h.symm⟩
  | dict m => simp [validateCamel] at h; exact ⟨_, h.symm⟩

theorem resolveWhitelist_error_kind (v : PyVal) (e : PyErr)
    (h : resolveWhitelist v = Except.error e) : ∃ s, e = PyErr.improperlyConfigured s := by
  cases v <;> simp [resolveWhitelist] at h
  case list xs => split_ifs at h <;> simp_all; exact ⟨_, h.symm⟩
  all_goals exact ⟨_, h.symm⟩

theorem resolveWhitelist_ok_shape (v w : PyVal) (h : resolveWhitelist v = Except.ok w) :
    v = PyVal.none ∨ ∃ xs, v = PyVal.list xs ∧ xs.all isStrV = true := by
  cases v <;> simp only [resolveWhitelist] at h
  case none => exact Or.inl rfl
  case list xs =>
    split_ifs at h with hall
    exact Or.inr ⟨xs, rfl, hall⟩
  all_goals exact absurd h (by simp)

theorem resolveCaseTester_ok_shape (v t : PyVal) (h : resolveCaseTester v = Except.ok t) :
    v = PyVal.none ∨ isCallableV v = true := by
  cases v <;> simp only [resolveCaseTester] at h
  case none => exact Or.inl rfl
  case callable tag => exact Or.inr rfl
  all_goals exact absurd h (by simp)

theorem applySwOverrides_ok (d : List (String × PyVal)) (st st' : SwBase)
    (h : applySwOverrides d st = Except.ok st') :
    st'.SCHEMA_LOADER = (getSetting d "SCHEMA_LOADER").getD st.SCHEMA_LOADER ∧
    st'.CASE_TESTER = (getSetting d "CASE_TESTER").getD st.CASE_TESTER ∧
    st'.CAMEL_CASE_PARSER = (getSetting d "CAMEL_CASE_PARSER").getD st.CAMEL_CASE_PARSER ∧
    st'.CASE_WHITELIST = (getSetting d "CASE_WHITELIST").getD st.CASE_WHITELIST := by
  induction d generalizing st with
  | nil =>
    simp only [applySwOverrides] at h
    injection h with h
    subst h
    simp [getSetting]
  | cons kv rest ih =>
    obtain ⟨k, v⟩ := kv
    simp only [applySwOverrides] at h
    rw [getSetting_getD_cons, getSetting_getD_cons, getSetting_getD_cons, getSetting_getD_cons]
    split_ifs at h with h1 h2 h3 h4 h5
    · have := ih _ h; simp_all
    · have := ih _ h; simp_all
    · have := ih _ h; simp_all
    · have := ih _ h; simp_all
    · have := ih _ h; simp_all
    · have := ih _ h; simp_all

theorem applySwOverrides_clobbers (d : List (String × PyVal)) (st st' : SwBase)
    (hclean : ∀ kv ∈ d, kv.1 ∉ swExtraAttrs)
    (h : applySwOverrides d st = Except.ok st') : st'.CLOBBERS = st.CLOBBERS := by
  induction d generalizing st with
  | nil =>
    simp only [applySwOverrides] at h
    injection h with h
    subst h
    rfl
  | cons kv rest ih =>
    obtain ⟨k, v⟩ := kv
    have hk := hclean (k, v) (List.mem_cons_self _ _)
    have hrest : ∀ kv ∈ rest, kv.1 ∉ swExtraAttrs :=
      fun kv hkv => hclean kv (List.mem_cons_of_mem _ hkv)
    simp only [applySwOverrides] at h
    split_ifs at h with h1 h2 h3 h4 h5
    · simpa using ih _ hrest h
    · simpa using ih _ hrest h
    · simpa using ih _ hrest h
    · simpa using ih _ hrest h
    · exact absurd (List.mem_append_left nonWritableDunders h5) hk
    · simpa using ih _ hrest h

theorem applySwOverrides_no_error (d : List (String × PyVal)) (st : SwBase) (e : PyErr)
    (hclean : ∀ kv ∈ d, kv.1 ∉ swExtraAttrs)
    (h : applySwOverrides d st = Except.error e) : False := by
  induction d generalizing st with
  | nil => simp [applySwOverrides] at h
  | cons kv rest ih =>
    obtain ⟨k, v⟩ := kv
    have hk := hclean (k, v) (List.mem_cons_self _ _)
    have hrest : ∀ kv ∈ rest, kv.1 ∉ swExtraAttrs :=
      fun kv hkv => hclean kv (List.mem_cons_of_mem _ hkv)
    simp only [applySwOverrides] at h
    split_ifs at h with h1 h2 h3 h4 h5 h6 h7
    · exact ih _ hrest h
    · exact ih _ hrest h
    · exact ih _ hrest h
    · exact ih _ hrest h
    · exact ih _ hrest h
    · rcases h6 with rfl | rfl
      · exact hk (show "__class__" ∈ swExtraAttrs by decide)
      · exact hk (show "__dict__" ∈ swExtraAttrs by decide)
    · subst h7
      exact hk (show "__weakref__" ∈ swExtraAttrs by decide)
    · exact ih _ hrest h

theorem getSetting_none_not_mem (d : List (String × PyVal)) (n : String)
    (h : getSetting d n = Option.none) : ∀ v, (n, v) ∉ d := by
  induction d with
  | nil => simp
  | cons kv rest ih =>
    obtain ⟨k, w⟩ := kv
    simp only [getSetting] at h
    intro v hv
    rcases List.mem_cons.mp hv with hhd | htl
    · injection hhd with hk hw
      subst hk
      cases hr : getSetting rest n <;> rw [hr] at h
      · simp at h
      · simp at h
    · cases hr : getSetting rest n <;> rw [hr] at h
      · exact ih hr v htl
      · simp at h

theorem applySwOverrides_clobber_absent (d : List (String × PyVal)) (st st' : SwBase)
    (n : String) (habs : ∀ v, (n, v) ∉ d) (h : applySwOverrides d st = Except.ok st') :
    lookupVal st'.CLOBBERS n = lookupVal st.CLOBBERS n := by
  induction d generalizing st with
  | nil =>
    simp only [applySwOverrides] at h
    injection h with h
    subst h
    rfl
  | cons kv rest ih =>
    obtain ⟨k, v⟩ := kv
    have hkn : k ≠ n := by
      rintro rfl
      exact habs v (List.mem_cons_self _ _)
    have hrest : ∀ v, (n, v) ∉ rest := fun v hv => habs v (List.mem_cons_of_mem _ hv)
    simp only [applySwOverrides] at h
    split_ifs at h with h1 h2 h3 h4 h5
    · simpa using ih _ hrest h
    · simpa using ih _ hrest h
    · simpa using ih _ hrest h
    · simpa using ih _ hrest h
    · have := ih _ hrest h
      simpa [lookupVal, hkn] using this
    · simpa using ih _ hrest h

theorem swLoaderStep_clean (base : SwBase)
    (hno : lookupVal base.CLOBBERS "set_and_validate_schema_loader" = Option.none) :
    swLoaderStep base = validateLoader base.SCHEMA_LOADER := by
  unfold swLoaderStep
  rw [hno]

theorem swTesterStep_clean (base : SwBase)
    (hno : lookupVal base.CLOBBERS "validate_case_tester_setting" = Option.none) :
    swTesterStep base = resolveCaseTester base.CASE_TESTER := by
  unfold swTesterStep
  rw [hno]

theorem swCamelStep_clean (env : Env) (base : SwBase)
    (hno : lookupVal base.CLOBBERS "validate_camel_case_parser_setting" = Option.none) :
    swCamelStep env base = validateCamel env.camelCaseInstalled base.CAMEL_CASE_PARSER := by
  unfold swCamelStep
  rw [hno]

theorem swWhitelistStep_clean (base : SwBase)
    (hno : lookupVal base.CLOBBERS "validate_case_whitelist" = Option.none) :
    swWhitelistStep base = resolveWhitelist base.CASE_WHITELIST := by
  unfold swWhitelistStep
  rw [hno]

theorem swaggerInit_ok (env : Env) (d : List (String × PyVal)) (st : SwaggerSettings)
    (h : swaggerInit env d = Except.ok st) :
    ∃ base m mw tester wl,
      applySwOverrides d swDefaults = Except.ok base ∧
      getMiddlewareDict (getSetting d "MIDDLEWARE") = Except.ok m ∧
      middlewareInit env.regexOk m = Except.ok mw ∧
      swLoaderStep base = Except.ok () ∧
      swTesterStep base = Except.ok tester ∧
      swCamelStep env base = Except.ok () ∧
      swWhitelistStep base = Except.ok wl ∧
      st = { SCHEMA_LOADER := base.SCHEMA_LOADER
             CASE_TESTER := tester
             CAMEL_CASE_PARSER := base.CAMEL_CASE_PARSER
             CASE_WHITELIST := wl
             MIDDLEWARE := mw } := by
  unfold swaggerInit at h
  split at h
  · simp at h
  · rename_i base hbase
    unfold swaggerInitCore at h
    split at h
    · simp at h
    · rename_i m hm
      split at h
      · simp at h
      · rename_i mw hmw
        split at h
        · simp at h
        · rename_i hload
          split at h
          · simp at h
          · rename_i tester htester
            split at h
            · simp at h
            · rename_i hcamel
              split at h
              · simp at h
              · rename_i wl hwl
                injection h with h
                exact ⟨base, m, mw, tester, wl, hbase, hm, hmw, hload, htester, hcamel,
                  hwl, h.symm⟩

/-! ### The misconfigurations named by the spec -/

/-- The `MIDDLEWARE` entry, when present, is a dict or `None` (anything else never
reaches the validation code: `.items()` raises an `AttributeError` first). -/
def mwWellFormed (d : List (String × PyVal)) : Prop :=
  getSetting d "MIDDLEWARE" = Option.none ∨ getSetting d "MIDDLEWARE" = Option.some PyVal.none ∨
    ∃ m, getSetting d "MIDDLEWARE" = Option.some (PyVal.dict m)

/-- No top-level key names a class attribute of `SwaggerTesterSettings` (which the
overwrite loop would `setattr`, shadowing a method or dunder instead of being
ignored). -/
def noShadowTop (d : List (String × PyVal)) : Prop :=
  ∀ kv ∈ d, kv.1 ∉ swExtraAttrs

/-- No middleware key names a class attribute of `MiddlewareSettings`. -/
def noShadowMw (d : List (String × PyVal)) : Prop :=
  ∀ m, getSetting d "MIDDLEWARE" = Option.some (PyVal.dict m) → ∀ kv ∈ m, kv.1 ∉ mwExtraAttrs

/-- `SCHEMA_LOADER` is absent or `None`. -/
def missingLoader (d : List (String × PyVal)) : Prop :=
  getSetting d "SCHEMA_LOADER" = Option.none ∨ getSetting d "SCHEMA_LOADER" = Option.some PyVal.none

/-- The middleware dict carries a non-string `LOG_LEVEL`. -/
def badLogLevelType (d : List (String × PyVal)) : Prop :=
  ∃ m v, getSetting d "MIDDLEWARE" = Option.some (PyVal.dict m) ∧
    getSetting m "LOG_LEVEL" = Option.some v ∧ isStrV v = false

/-- The middleware dict carries an unknown log-level name. -/
def badLogLevelName (d : List (String × PyVal)) : Prop :=
  ∃ m s, getSetting d "MIDDLEWARE" = Option.some (PyVal.dict m) ∧
    getSetting m "LOG_LEVEL" = Option.some (PyVal.str s) ∧
    logLevels.contains (strUpper s) = false

/-- One of the three boolean middleware toggles is set to a non-boolean. -/
def badMwToggle (d : List (String × PyVal)) : Prop :=
  ∃ m v, getSetting d "MIDDLEWARE" = Option.some (PyVal.dict m) ∧
    (getSetting m "REJECT_INVALID_REQUEST_BODIES" = Option.some v ∨
      getSetting m "VALIDATE_REQUEST_BODY" = Option.some v ∨
      getSetting m "VALIDATE_RESPONSE" = Option.some v) ∧
    isBoolV v = false

/-- The `CAMEL_CASE_PARSER` toggle is set to a non-boolean. -/
def badCamelToggle (d : List (String × PyVal)) : Prop :=
  ∃ v, getSetting d "CAMEL_CASE_PARSER" = Option.some v ∧ isBoolV v = false

/-- The `CASE_WHITELIST` is neither `None` nor a list of strings. -/
def badWhitelist (d : List (String × PyVal)) : Prop :=
  ∃ v, getSetting d "CASE_WHITELIST" = Option.some v ∧
    ((isListV v = false ∧ v ≠ PyVal.none) ∨
      ∃ xs, v = PyVal.list xs ∧ xs.all isStrV = false)

/-- The `CASE_TESTER` is neither `None` nor a function. -/
def badCaseTester (d : List (String × PyVal)) : Prop :=
  ∃ v, getSetting d "CASE_TESTER" = Option.some v ∧ v ≠ PyVal.none ∧ isCallableV v = false

/-- The exempt-URL list contains an element `re.compile` rejects. -/
def badExemptUrls (env : Env) (d : List (String × PyVal)) : Prop :=
  ∃ m xs, getSetting d "MIDDLEWARE" = Option.some (PyVal.dict m) ∧
    getSetting m "VALIDATION_EXEMPT_URLS" = Option.some (PyVal.list xs) ∧
    xs.all (pyReCompileOk env.regexOk) = false

/-- Any of the misconfigurations enumerated by the spec for C2 (with `None` values for
`CASE_TESTER` and `CASE_WHITELIST` exempted, since the code normalizes those). -/
def badSwaggerConfig (env : Env) (d : List (String × PyVal)) : Prop :=
  missingLoader d ∨ badLogLevelType d ∨ badLogLevelName d ∨ badMwToggle d ∨
    badCamelToggle d ∨ badWhitelist d ∨ badCaseTester d ∨ badExemptUrls env d

theorem swaggerInit_error_kind (env : Env) (d : List (String × PyVal)) (e : PyErr)
    (hwf : mwWellFormed d) (htop : noShadowTop d) (hmw : noShadowMw d)
    (h : swaggerInit env d = Except.error e) :
    ∃ s, e = PyErr.improperlyConfigured s := by
  unfold swaggerInit at h
  split at h
  · rename_i e' he
    exact (applySwOverrides_no_error d swDefaults e' htop he).elim
  · rename_i base hbase
    have hCL : base.CLOBBERS = [] := by
      simpa [swDefaults] using applySwOverrides_clobbers d swDefaults base htop hbase
    have hnone : ∀ nm, lookupVal base.CLOBBERS nm = Option.none := by
      intro nm
      rw [hCL]
      rfl
    unfold swaggerInitCore at h
    split at h
    · rename_i e' he
      injection h with h
      subst h
      rcases hwf with hwf | hwf | ⟨m0, hwf⟩ <;> rw [hwf] at he <;> simp [getMiddlewareDict] at he
    · rename_i m hm
      split at h
      · rename_i e' he
        injection h with h
        subst h
        have hcm : ∀ kv ∈ m, kv.1 ∉ mwExtraAttrs := by
          rcases hwf with hwf | hwf | ⟨m0, hwf⟩ <;>
            rw [hwf] at hm <;> simp only [getMiddlewareDict] at hm <;> injection hm with hm
          · subst hm
            intro kv hkv
            simp at hkv
          · subst hm
            intro kv hkv
            simp at hkv
          · subst hm
            exact hmw m0 hwf
        exact middlewareInit_error_kind _ _ _ hcm he
      · split at h
        · rename_i e' he
          injection h with h
          subst h
          rw [swLoaderStep_clean base (hnone _)] at he
          exact validateLoader_error_kind _ _ he
        · split at h
          · rename_i e' he
            injection h with h
            subst h
            rw [swTesterStep_clean base (hnone _)] at he
            exact resolveCaseTester_error_kind _ _ he
          · split at h
            · rename_i e' he
              injection h with h
              subst h
              rw [swCamelStep_clean env base (hnone _)] at he
              exact validateCamel_error_kind _ _ _ he
            · split at h
              · rename_i e' he
                injection h with h
                subst h
                rw [swWhitelistStep_clean base (hnone _)] at he
                exact resolveWhitelist_error_kind _ _ he
              · simp at h

/-! ### Claim theorems: configuration (C2, C8, C9, C10) -/

/-- C2 (counterexample): the claim says construction raises ImproperlyConfigured for
every settings dictionary with a non-callable case tester, but (a) a `CASE_TESTER`
of `None` (not callable) is silently replaced by a no-op lambda and construction
succeeds, and (b) with a key `validate_case_whitelist` shadowing the validation
method, a non-list `CASE_WHITELIST` of `5` raises a `TypeError`, not
`ImproperlyConfigured`. -/
theorem c2_counterexample :
    (isCallableV PyVal.none = false ∧
      getSetting [("SCHEMA_LOADER", PyVal.cls true true), ("CASE_TESTER", PyVal.none)]
        "CASE_TESTER" = Option.some PyVal.none ∧
      ∃ st, swaggerInit envAllOk
        [("SCHEMA_LOADER", PyVal.cls true true), ("CASE_TESTER", PyVal.none)] =
          Except.ok st) ∧
    (isListV (PyVal.int 5) = false ∧
      getSetting
          [("SCHEMA_LOADER", PyVal.cls true true), ("CASE_WHITELIST", PyVal.int 5),
           ("validate_case_whitelist", PyVal.int 0)] "CASE_WHITELIST" =
        Option.some (PyVal.int 5) ∧
      swaggerInit envAllOk
          [("SCHEMA_LOADER", PyVal.cls true true), ("CASE_WHITELIST", PyVal.int 5),
           ("validate_case_whitelist", PyVal.int 0)] =
        Except.error (PyErr.typeError (notCallableMsg "validate_case_whitelist"))) :=
  ⟨⟨rfl, rfl, ⟨_, rfl⟩⟩, ⟨rfl, rfl, rfl⟩⟩

/-- C2 (amended): for every settings dictionary whose MIDDLEWARE entry, if present,
is a dict or None, and none of whose keys (top-level or middleware) shadow a class
attribute of the settings objects, each misconfiguration the spec lists — missing or
None SCHEMA_LOADER, non-string LOG_LEVEL, unknown log-level name, non-boolean
toggle, a CASE_WHITELIST that is neither None nor a list of strings, a CASE_TESTER
that is neither None nor a callable, or an uncompilable exempt-URL pattern — makes
`SwaggerTesterSettings` construction raise a typed `ImproperlyConfigured` error
during `__init__`. -/
theorem c2_eager_validation (env : Env) (d : List (String × PyVal))
    (hwf : mwWellFormed d) (htop : noShadowTop d) (hmwc : noShadowMw d)
    (hbad : badSwaggerConfig env d) :
    ∃ msg, swaggerInit env d = Except.error (PyErr.improperlyConfigured msg) := by
  cases h : swaggerInit env d with
  | error e =>
    obtain ⟨s, rfl⟩ := swaggerInit_error_kind env d e hwf htop hmwc h
    exact ⟨s, rfl⟩
  | ok st =>
    exfalso
    obtain ⟨base, m, mw, tester, wl, hbase, hm, hmw, hload, htester, hcamel, hwl, hst⟩ :=
      swaggerInit_ok env d st h
    have hCL : base.CLOBBERS = [] := by
      simpa [swDefaults] using applySwOverrides_clobbers d swDefaults base htop hbase
    have hnone : ∀ nm, lookupVal base.CLOBBERS nm = Option.none := by
      intro nm
      rw [hCL]
      rfl
    rw [swLoaderStep_clean base (hnone _)] at hload
    rw [swTesterStep_clean base (hnone _)] at htester
    rw [swCamelStep_clean env base (hnone _)] at hcamel
    rw [swWhitelistStep_clean base (hnone _)] at hwl
    obtain ⟨hSL, hCT, hCC, hCW⟩ := applySwOverrides_ok d swDefaults base hbase
    rcases hbad with hb | hb | hb | hb | hb | hb | hb | hb
    · -- missing SCHEMA_LOADER
      have hcls := validateLoader_ok _ hload
      rcases hb with hb | hb <;> rw [hb] at hSL <;>
        simp only [Option.getD_some, Option.getD_none, swDefaults] at hSL <;>
        rw [hSL] at hcls <;> exact PyVal.noConfusion hcls
    · -- non-string LOG_LEVEL
      obtain ⟨m', v, hm', hv, hnotstr⟩ := hb
      rw [hm'] at hm
      simp only [getMiddlewareDict] at hm
      injection hm with hm
      subst hm
      obtain ⟨stm, s, hap, hLL, hlv, -⟩ := middlewareInit_ok _ _ _ (hmwc m' hm') hmw
      obtain ⟨hL, -, -, -, -⟩ := applyMwOverrides_ok _ _ _ hap
      rw [hv, Option.getD_some] at hL
      rw [hL] at hLL
      subst hLL
      simp [isStrV] at hnotstr
    · -- unknown log-level name
      obtain ⟨m', s', hm', hv, hbadlv⟩ := hb
      rw [hm'] at hm
      simp only [getMiddlewareDict] at hm
      injection hm with hm
      subst hm
      obtain ⟨stm, s, hap, hLL, hlv, -⟩ := middlewareInit_ok _ _ _ (hmwc m' hm') hmw
      obtain ⟨hL, -, -, -, -⟩ := applyMwOverrides_ok _ _ _ hap
      rw [hv, Option.getD_some] at hL
      rw [hL] at hLL
      injection hLL with hss
      subst hss
      rw [hlv] at hbadlv
      exact Bool.noConfusion hbadlv
    · -- non-boolean middleware toggle
      obtain ⟨m', v, hm', hv, hnotbool⟩ := hb
      rw [hm'] at hm
      simp only [getMiddlewareDict] at hm
      injection hm with hm
      subst hm
      obtain ⟨stm, s, hap, hLL, hlv, hrej, hvrb, hvr, -⟩ := middlewareInit_ok _ _ _ (hmwc m' hm') hmw
      obtain ⟨hL, hR, hVR, hVRB, hEX⟩ := applyMwOverrides_ok _ _ _ hap
      rcases hv with hv | hv | hv
      · rw [hv, Option.getD_some] at hR
        rw [hR] at hrej
        rw [hrej] at hnotbool
        exact Bool.noConfusion hnotbool
      · rw [hv, Option.getD_some] at hVRB
        rw [hVRB] at hvrb
        rw [hvrb] at hnotbool
        exact Bool.noConfusion hnotbool
      · rw [hv, Option.getD_some] at hVR
        rw [hVR] at hvr
        rw [hvr] at hnotbool
        exact Bool.noConfusion hnotbool
    · -- non-boolean CAMEL_CASE_PARSER
      obtain ⟨v, hv, hnotbool⟩ := hb
      rw [hv, Option.getD_some] at hCC
      have hbool := validateCamel_ok_bool _ _ hcamel
      rw [hCC] at hbool
      rw [hbool] at hnotbool
      exact Bool.noConfusion hnotbool
    · -- bad CASE_WHITELIST
      obtain ⟨v, hv, hb⟩ := hb
      rw [hv, Option.getD_some] at hCW
      have hshape := resolveWhitelist_ok_shape _ _ hwl
      rw [hCW] at hshape
      rcases hb with ⟨hnotlist, hne⟩ | ⟨xs, hxs, hbadstr⟩
      · rcases hshape with hnone2 | ⟨xs, hlist, -⟩
        · exact hne hnone2
        · rw [hlist] at hnotlist
          exact Bool.noConfusion hnotlist
      · rcases hshape with hnone2 | ⟨xs', hlist, hall⟩
        · rw [hxs] at hnone2
          exact PyVal.noConfusion hnone2
        · rw [hxs] at hlist
          injection hlist with hxx
          subst hxx
          rw [hall] at hbadstr
          exact Bool.noConfusion hbadstr
    · -- bad CASE_TESTER
      obtain ⟨v, hv, hne, hnotcall⟩ := hb
      rw [hv, Option.getD_some] at hCT
      have hshape := resolveCaseTester_ok_shape _ _ htester
      rw [hCT] at hshape
      rcases hshape with hnone2 | hcall
      · exact hne hnone2
      · rw [hcall] at hnotcall
        exact Bool.noConfusion hnotcall
    · -- uncompilable exempt-URL pattern
      obtain ⟨m', xs, hm', hv, hbadre⟩ := hb
      rw [hm'] at hm
      simp only [getMiddlewareDict] at hm
      injection hm with hm
      subst hm
      obtain ⟨stm, s, hap, hLL, hlv, hrej, hvrb, hvr, hex, -⟩ :=
        middlewareInit_ok _ _ _ (hmwc m' hm') hmw
      obtain ⟨hL, hR, hVR, hVRB, hEX⟩ := applyMwOverrides_ok _ _ _ hap
      rw [hv, Option.getD_some] at hEX
      rw [hEX] at hex
      simp only [exemptUrlsOk] at hex
      rw [hex] at hbadre
      exact Bool.noConfusion hbadre

/-- C2 witness: the empty settings dictionary shadows nothing, has a well-formed
(absent) MIDDLEWARE entry and a missing SCHEMA_LOADER, and construction raises. -/
theorem c2_witness :
    mwWellFormed ([] : List (String × PyVal)) ∧ noShadowTop [] ∧ noShadowMw [] ∧
      badSwaggerConfig envAllOk [] ∧
      ∃ msg, swaggerInit envAllOk [] = Except.error (PyErr.improperlyConfigured msg) := by
  refine ⟨Or.inl rfl, ?_, ?_, Or.inl (Or.inl rfl), ?_⟩
  · intro kv hkv
    simp at hkv
  · intro m hm
    simp [getSetting] at hm
  · exact c2_eager_validation envAllOk [] (Or.inl rfl) (fun kv hkv => by simp at hkv)
      (fun m hm => by simp [getSetting] at hm) (Or.inl (Or.inl rfl))

/-- C10 (counterexample): a dictionary whose key `validate_case_tester_setting`
shadows that validation method with a function value (so the call does nothing)
constructs successfully with `CASE_TESTER = None`, which is not a callable — the
claimed invariant fails for this successful construction. -/
theorem c10_counterexample :
    ∃ st, swaggerInit envAllOk
        [("SCHEMA_LOADER", PyVal.cls true true), ("CASE_TESTER", PyVal.none),
         ("validate_case_tester_setting", PyVal.callable "lambda")] = Except.ok st ∧
      isCallableV st.CASE_TESTER = false :=
  ⟨_, rfl, rfl⟩

/-- C10 (amended): for every settings dictionary that does not shadow the
`validate_case_tester_setting` or `validate_case_whitelist` methods, after every
successful construction the `CASE_TESTER` attribute is a callable (a `None` setting
having been replaced by a no-op lambda) and `CASE_WHITELIST` is a list of strings
(a `None` setting having been replaced by the empty list). -/
theorem c10_normalized_settings (env : Env) (d : List (String × PyVal))
    (st : SwaggerSettings)
    (hct : getSetting d "validate_case_tester_setting" = Option.none)
    (hcw : getSetting d "validate_case_whitelist" = Option.none)
    (h : swaggerInit env d = Except.ok st) :
    isCallableV st.CASE_TESTER = true ∧
    (∃ xs, st.CASE_WHITELIST = PyVal.list xs ∧ xs.all isStrV = true) ∧
    (getSetting d "CASE_TESTER" = Option.some PyVal.none →
      st.CASE_TESTER = PyVal.callable "lambda") ∧
    (getSetting d "CASE_WHITELIST" = Option.some PyVal.none →
      st.CASE_WHITELIST = PyVal.list []) := by
  obtain ⟨base, m, mw, tester, wl, hbase, hm, hmw, hload, htester, hcamel, hwl, hst⟩ :=
    swaggerInit_ok env d st h
  have hnoT : lookupVal base.CLOBBERS "validate_case_tester_setting" = Option.none := by
    have := applySwOverrides_clobber_absent d swDefaults base _
      (getSetting_none_not_mem d _ hct) hbase
    simpa [swDefaults, lookupVal] using this
  have hnoW : lookupVal base.CLOBBERS "validate_case_whitelist" = Option.none := by
    have := applySwOverrides_clobber_absent d swDefaults base _
      (getSetting_none_not_mem d _ hcw) hbase
    simpa [swDefaults, lookupVal] using this
  rw [swTesterStep_clean base hnoT] at htester
  rw [swWhitelistStep_clean base hnoW] at hwl
  obtain ⟨hSL, hCT, hCC, hCW⟩ := applySwOverrides_ok d swDefaults base hbase
  obtain ⟨hcall, hTnone, -⟩ := resolveCaseTester_ok _ _ htester
  obtain ⟨hlist, hWnone, -⟩ := resolveWhitelist_ok _ _ hwl
  subst hst
  refine ⟨hcall, hlist, fun hv => ?_, fun hv => ?_⟩
  · apply hTnone
    rw [hv, Option.getD_some] at hCT
    exact hCT
  · apply hWnone
    rw [hv, Option.getD_some] at hCW
    exact hCW

/-- C10 witness: a dictionary passing `None` for both settings (and shadowing no
method) constructs successfully and both attributes come out normalized. -/
theorem c10_witness :
    isCallableV
        (SwaggerSettings.CASE_TESTER
          { SCHEMA_LOADER := PyVal.cls true true
            CASE_TESTER := PyVal.callable "lambda"
            CAMEL_CASE_PARSER := PyVal.bool false
            CASE_WHITELIST := PyVal.list []
            MIDDLEWARE := { mwDefaults with LOGGER := "ERROR" } }) = true ∧
      (∃ xs, PyVal.list [] = PyVal.list xs ∧ xs.all isStrV = true) ∧ True := by
  have hinit :
      swaggerInit envAllOk
        [("SCHEMA_LOADER", PyVal.cls true true), ("CASE_TESTER", PyVal.none),
          ("CASE_WHITELIST", PyVal.none)] =
        Except.ok
          { SCHEMA_LOADER := PyVal.cls true true
            CASE_TESTER := PyVal.callable "lambda"
            CAMEL_CASE_PARSER := PyVal.bool false
            CASE_WHITELIST := PyVal.list []
            MIDDLEWARE := { mwDefaults with LOGGER := "ERROR" } } := by rfl
  obtain ⟨h1, h2, h3, h4⟩ := c10_normalized_settings envAllOk
    [("SCHEMA_LOADER", PyVal.cls true true), ("CASE_TESTER", PyVal.none),
      ("CASE_WHITELIST", PyVal.none)] _ rfl rfl hinit
  exact ⟨h1, h2, trivial⟩

/-- C9 (counterexample): a middleware dictionary carrying the forbidden combination
constructs successfully when an extra `validate_validate_request_body` key shadows
the compatibility-check method with a function value, so no `ImproperlyConfigured`
is raised. -/
theorem c9_counterexample :
    getSetting
        [("VALIDATE_REQUEST_BODY", PyVal.bool false),
         ("REJECT_INVALID_REQUEST_BODIES", PyVal.bool true),
         ("validate_validate_request_body", PyVal.callable "lambda")]
        "VALIDATE_REQUEST_BODY" = Option.some (PyVal.bool false) ∧
    getSetting
        [("VALIDATE_REQUEST_BODY", PyVal.bool false),
         ("REJECT_INVALID_REQUEST_BODIES", PyVal.bool true),
         ("validate_validate_request_body", PyVal.callable "lambda")]
        "REJECT_INVALID_REQUEST_BODIES" = Option.some (PyVal.bool true) ∧
    ∃ st, middlewareInit (fun _ => true)
        [("VALIDATE_REQUEST_BODY", PyVal.bool false),
         ("REJECT_INVALID_REQUEST_BODIES", PyVal.bool true),
         ("validate_validate_request_body", PyVal.callable "lambda")] = Except.ok st :=
  ⟨rfl, rfl, ⟨_, rfl⟩⟩

/-- C9 (amended): for every middleware settings dictionary none of whose keys
shadow a class attribute, `VALIDATE_REQUEST_BODY` False together with
`REJECT_INVALID_REQUEST_BODIES` True makes `MiddlewareSettings` construction raise
`ImproperlyConfigured`; for the other boolean combinations of these two settings,
with all other settings left at their valid defaults, construction succeeds. -/
theorem c9_request_body_combination :
    (∀ (regexOk : String → Bool) (m : List (String × PyVal)),
      (∀ kv ∈ m, kv.1 ∉ mwExtraAttrs) →
      getSetting m "VALIDATE_REQUEST_BODY" = Option.some (PyVal.bool false) →
      getSetting m "REJECT_INVALID_REQUEST_BODIES" = Option.some (PyVal.bool true) →
      ∃ msg, middlewareInit regexOk m = Except.error (PyErr.improperlyConfigured msg)) ∧
    (∀ (regexOk : String → Bool) (bv br : Bool), ¬(bv = false ∧ br = true) →
      ∃ st, middlewareInit regexOk
        [("VALIDATE_REQUEST_BODY", PyVal.bool bv),
         ("REJECT_INVALID_REQUEST_BODIES", PyVal.bool br)] = Except.ok st) := by
  constructor
  · intro regexOk m hclean hvrb hrej
    cases h : middlewareInit regexOk m with
    | error e =>
      obtain ⟨s, rfl⟩ := middlewareInit_error_kind regexOk m e hclean h
      exact ⟨s, rfl⟩
    | ok mw =>
      exfalso
      obtain ⟨stm, s, hap, hLL, hlv, hbrej, hbvrb, hbvr, hex, hcombo, -⟩ :=
        middlewareInit_ok _ _ _ hclean h
      obtain ⟨hL, hR, hVR, hVRB, hEX⟩ := applyMwOverrides_ok _ _ _ hap
      rw [hvrb, Option.getD_some] at hVRB
      rw [hrej, Option.getD_some] at hR
      rw [hVRB, hR] at hcombo
      simp [isFalseV, isTrueV] at hcombo
  · intro regexOk bv br hn
    cases bv with
    | false =>
      cases br with
      | false => exact ⟨_, rfl⟩
      | true => exact absurd ⟨rfl, rfl⟩ hn
    | true =>
      cases br with
      | false => exact ⟨_, rfl⟩
      | true => exact ⟨_, rfl⟩

/-- C9 witness: the forbidden combination raises at a concrete shadow-free
dictionary, and a concrete allowed combination constructs. -/
theorem c9_witness :
    (∃ msg, middlewareInit (fun _ => true)
      [("VALIDATE_REQUEST_BODY", PyVal.bool false),
       ("REJECT_INVALID_REQUEST_BODIES", PyVal.bool true)] =
        Except.error (PyErr.improperlyConfigured msg)) ∧
    (∃ st, middlewareInit (fun _ => true)
      [("VALIDATE_REQUEST_BODY", PyVal.bool true),
       ("REJECT_INVALID_REQUEST_BODIES", PyVal.bool true)] = Except.ok st) :=
  ⟨c9_request_body_combination.1 (fun _ => true)
      [("VALIDATE_REQUEST_BODY", PyVal.bool false),
       ("REJECT_INVALID_REQUEST_BODIES", PyVal.bool true)] (by decide) rfl rfl,
    c9_request_body_combination.2 (fun _ => true) true true (by simp)⟩

/-- The five top-level names `SwaggerTesterSettings.__init__` reads from the settings
dictionary (four overwritable data attributes plus the `MIDDLEWARE` sub-dictionary). -/
def swTopKeys : List String :=
  ["SCHEMA_LOADER", "CASE_TESTER", "CAMEL_CASE_PARSER", "CASE_WHITELIST", "MIDDLEWARE"]

theorem getSetting_middle (d1 d2 : List (String × PyVal)) (k : String) (v : PyVal)
    (key : String) (hk : k ≠ key) :
    getSetting (d1 ++ (k, v) :: d2) key = getSetting (d1 ++ d2) key := by
  induction d1 with
  | nil =>
    simp only [List.nil_append, getSetting]
    cases getSetting d2 key <;> simp [hk]
  | cons kv rest ih =>
    obtain ⟨k', v'⟩ := kv
    simp only [List.cons_append, getSetting]
    rw [show rest.append ((k, v) :: d2) = rest ++ (k, v) :: d2 from rfl,
      show rest.append d2 = rest ++ d2 from rfl, ih]

theorem applySw_middle (d1 d2 : List (String × PyVal)) (k : String) (v : PyVal)
    (st : SwBase) (h1 : k ≠ "SCHEMA_LOADER") (h2 : k ≠ "CASE_TESTER")
    (h3 : k ≠ "CAMEL_CASE_PARSER") (h4 : k ≠ "CASE_WHITELIST") (h5 : k ∉ swClobberable)
    (h6 : ¬(k = "__class__" ∨ k = "__dict__")) (h7 : k ≠ "__weakref__") :
    applySwOverrides (d1 ++ (k, v) :: d2) st = applySwOverrides (d1 ++ d2) st := by
  induction d1 generalizing st with
  | nil => simp [applySwOverrides, h1, h2, h3, h4, h5, h6, h7]
  | cons kv rest ih =>
    obtain ⟨k', v'⟩ := kv
    simp only [List.cons_append, applySwOverrides]
    split_ifs <;> first | rfl | exact ih _

/-- C8 (counterexample): a middleware dict whose only key is `__init__` — none of the
five settings — constructs successfully because `hasattr` also matches inherited
attributes, so no error names that key; and inserting the top-level key
`validate_case_whitelist` into a package dict is not silently ignored: it shadows
the validation method and turns a successful construction into a `TypeError`. -/
theorem c8_counterexample :
    (∃ st, middlewareInit (fun _ => true) [("__init__", PyVal.int 0)] = Except.ok st) ∧
    swaggerInit envAllOk [("SCHEMA_LOADER", PyVal.cls true true)] =
      Except.ok
        { SCHEMA_LOADER := PyVal.cls true true
          CASE_TESTER := PyVal.callable "lambda"
          CAMEL_CASE_PARSER := PyVal.bool false
          CASE_WHITELIST := PyVal.list []
          MIDDLEWARE := { mwDefaults with LOGGER := "ERROR" } } ∧
    swaggerInit envAllOk
        [("SCHEMA_LOADER", PyVal.cls true true), ("validate_case_whitelist", PyVal.int 0)] =
      Except.error (PyErr.typeError (notCallableMsg "validate_case_whitelist")) :=
  ⟨⟨_, rfl⟩, rfl, rfl⟩

/-- C8 (amended): `MiddlewareSettings` raises `ImproperlyConfigured` naming an
unrecognized key whenever its dictionary contains a key that names neither a
middleware setting nor an existing class attribute (no key naming a read-only
descriptor standing in the way), whereas `SwaggerTesterSettings` silently ignores a
top-level key that names no attribute at all: inserting such an entry anywhere in
the dictionary leaves the construction result unchanged. -/
theorem c8_unknown_keys :
    (∀ (regexOk : String → Bool) (m : List (String × PyVal)) (k : String) (v : PyVal),
      (k, v) ∈ m → k ∉ mwKeys → k ∉ mwExtraAttrs →
      (∀ kv ∈ m, kv.1 ∉ nonWritableDunders) →
      ∃ kk, kk ∉ mwKeys ∧ kk ∉ mwExtraAttrs ∧ (∃ vv, (kk, vv) ∈ m) ∧
        middlewareInit regexOk m =
          Except.error (PyErr.improperlyConfigured (excessMwMsg kk))) ∧
    (∀ (env : Env) (d1 d2 : List (String × PyVal)) (k : String) (v : PyVal),
      k ∉ swTopKeys → k ∉ swExtraAttrs →
      swaggerInit env (d1 ++ (k, v) :: d2) = swaggerInit env (d1 ++ d2)) := by
  constructor
  · intro regexOk m k v hmem hks hka hnw
    obtain ⟨kk, hkk, hkk2, hkk3, vv, hvv⟩ := mem_unknown_firstUnknownKey m k v hmem hks hka
    have hkkext : kk ∉ mwExtraAttrs := by
      intro hx
      rcases List.mem_append.mp hx with hx | hx
      · exact hkk3 hx
      · exact hnw (kk, vv) hvv hx
    refine ⟨kk, hkk2, hkkext, ⟨vv, hvv⟩, ?_⟩
    unfold middlewareInit
    rw [applyMwOverrides_unknown m mwDefaults kk hnw hkk]
  · intro env d1 d2 k v hks hka
    simp only [swTopKeys, List.mem_cons, List.mem_singleton, List.not_mem_nil] at hks
    push_neg at hks
    obtain ⟨h1, h2, h3, h4, h5, -⟩ := hks
    have h6 : k ∉ swClobberable := fun hc => hka (List.mem_append_left _ hc)
    have h7 : ¬(k = "__class__" ∨ k = "__dict__") := by
      rintro (rfl | rfl)
      · exact hka (show "__class__" ∈ swExtraAttrs by decide)
      · exact hka (show "__dict__" ∈ swExtraAttrs by decide)
    have h8 : k ≠ "__weakref__" := by
      rintro rfl
      exact hka (show "__weakref__" ∈ swExtraAttrs by decide)
    unfold swaggerInit
    rw [applySw_middle d1 d2 k v swDefaults h1 h2 h3 h4 h6 h7 h8,
      getSetting_middle d1 d2 k v "MIDDLEWARE" h5]

/-- C8 witness: a concrete fully-unknown middleware key raises and names itself,
while a concrete fully-unknown top-level key changes nothing. -/
theorem c8_witness :
    (∃ kk, kk ∉ mwKeys ∧ kk ∉ mwExtraAttrs ∧
      (∃ vv, (kk, vv) ∈ [("LOG_LEVL", PyVal.str "INFO")]) ∧
      middlewareInit (fun _ => true) [("LOG_LEVL", PyVal.str "INFO")] =
        Except.error (PyErr.improperlyConfigured (excessMwMsg kk))) ∧
    swaggerInit envAllOk
        ([("SCHEMA_LOADER", PyVal.cls true true)] ++ ("CUSTOM_LOADER_KWARG", PyVal.int 3) :: []) =
      swaggerInit envAllOk ([("SCHEMA_LOADER", PyVal.cls true true)] ++ []) :=
  ⟨c8_unknown_keys.1 (fun _ => true) _ "LOG_LEVL" (PyVal.str "INFO")
      (List.mem_singleton.mpr rfl) (by decide) (by decide) (by decide),
    c8_unknown_keys.2 envAllOk [("SCHEMA_LOADER", PyVal.cls true true)] []
      "CUSTOM_LOADER_KWARG" (PyVal.int 3) (by decide) (by decide)⟩

/-! ### fetch_from_dir (openapi_tester/static/get_schema.py) -/

def listPrefixEq : List Char → List Char → Bool
  | [], _ => true
  | _ :: _, [] => false
  | a :: as, b :: bs => a == b && listPrefixEq as bs

def hasSubList : List Char → List Char → Bool
  | needle, [] => needle.isEmpty
  | needle, c :: rest => listPrefixEq needle (c :: rest) || hasSubList needle rest

/-- The Python `needle in hay` substring test on strings. -/
def strContains (hay needle : String) : Bool := hasSubList needle.data hay.data

/-- The spec addresses the schema file "by file extension": the text after the last
dot of the path (empty when the path has no dot). -/
def fileExtension (path : String) : String :=
  if path.data.contains '.' then
    String.mk ((path.data.reverse.takeWhile (fun c => c != '.')).reverse)
  else ""

/-- The outcome of `fetch_from_dir`: which parser consumed the file contents, or the
`ImproperlyConfigured` message raised. -/
inductive FetchResult where
  | jsonParsed (content : String)
  | yamlParsed (content : String)
  | error (msg : String)

def readErrorMsg (e : String) : String :=
  "Could not read the openapi specification. Please make sure the path setting is correct. Error: " ++ e

def badExtensionMsg : String :=
  "The specified file path does not seem to point to a JSON or YAML file."

/-- `fetch_from_dir` from `get_schema.py`: reading the file may fail (modelled by the
`readResult` argument), and on success the parser is chosen by the substring tests
`'.json' in path`, then `'.yaml' in path or '.yml' in path`. -/
def fetch_from_dir (path : String) (readResult : Except String String) : FetchResult :=
  match readResult with
  | Except.error e => FetchResult.error (readErrorMsg e)
  | Except.ok content =>
    if strContains path ".json" then FetchResult.jsonParsed content
    else if strContains path ".yaml" || strContains path ".yml" then
      FetchResult.yamlParsed content
    else FetchResult.error badExtensionMsg

/-- C1 (counterexample): a path whose file extension is `txt` — neither a JSON nor a
YAML extension, so the claim demands an `ImproperlyConfigured` error — is parsed as
JSON, because `'.json' in path` is a substring test over the whole path. -/
theorem c1_counterexample :
    fileExtension "schema.json.txt" = "txt" ∧
    fetch_from_dir "schema.json.txt" (Except.ok "swagger docs") =
      FetchResult.jsonParsed "swagger docs" :=
  ⟨rfl, rfl⟩

/-- C1 (amended): after a successful read, `fetch_from_dir` selects the parser by
substring containment in the path: a path containing `.json` is parsed as JSON, a
path without `.json` but containing `.yaml` or `.yml` is parsed as YAML, and any
other path raises `ImproperlyConfigured`. -/
theorem c1_parser_selection (path content : String) :
    (strContains path ".json" = true →
      fetch_from_dir path (Except.ok content) = FetchResult.jsonParsed content) ∧
    (strContains path ".json" = false →
      (strContains path ".yaml" || strContains path ".yml") = true →
      fetch_from_dir path (Except.ok content) = FetchResult.yamlParsed content) ∧
    (strContains path ".json" = false → strContains path ".yaml" = false →
      strContains path ".yml" = false →
      fetch_from_dir path (Except.ok content) = FetchResult.error badExtensionMsg) := by
  refine ⟨fun h => ?_, fun h1 h2 => ?_, fun h1 h2 h3 => ?_⟩ <;>
    simp [fetch_from_dir, *]

/-- C1 witness: each selection branch evaluated at a concrete path. -/
theorem c1_witness :
    fetch_from_dir "a.json" (Except.ok "x") = FetchResult.jsonParsed "x" ∧
    fetch_from_dir "b.yaml" (Except.ok "x") = FetchResult.yamlParsed "x" ∧
    fetch_from_dir "c.txt" (Except.ok "x") = FetchResult.error badExtensionMsg :=
  ⟨(c1_parser_selection "a.json" "x").1 rfl,
    (c1_parser_selection "b.yaml" "x").2.1 rfl rfl,
    (c1_parser_selection "c.txt" "x").2.2 rfl rfl rfl⟩

/-! ### Path resolver (spec 4.1; exercised by tests/test_utils.py).
The module defining `resolve_path` is not among the provided sources, so the
resolver is modelled from the spec. -/

def lbrace : Char := Char.ofNat 123

def rbrace : Char := Char.ofNat 125

/-- Modelled from the spec: splitting a path on `/`; empty segments (from leading,
trailing or doubled slashes) are dropped, which is what normalizing slashes amounts
to for structural matching. -/
def splitSegsAux : List Char → List Char → List String
  | [], acc => if acc.isEmpty then [] else [String.mk acc.reverse]
  | c :: rest, acc =>
    if c = '/' then
      if acc.isEmpty then splitSegsAux rest []
      else String.mk acc.reverse :: splitSegsAux rest []
    else splitSegsAux rest (c :: acc)

def splitSegs (s : String) : List String := splitSegsAux s.data []

/-- Modelled from the spec: a path segment of the form `(lbrace)param(rbrace)` is a
template parameter. -/
def isParamSeg (s : String) : Bool :=
  match s.data with
  | [] => false
  | c :: cs => c == lbrace && cs.getLastD c == rbrace

/-- Modelled from the spec: a template segment matches a concrete segment when it is a
parameter (treated as a wildcard) or equal to it. -/
def segMatch (t c : String) : Bool := isParamSeg t || t == c

/-- Modelled from the spec: exact structural match of a templated key against a path,
segment by segment. -/
def pathMatches (template path : String) : Bool :=
  (splitSegs template).length == (splitSegs path).length &&
  ((splitSegs template).zip (splitSegs path)).all (fun q => segMatch q.1 q.2)

def joinSlash : List String → String
  | [] => ""
  | [s] => s
  | s :: rest => s ++ "/" ++ joinSlash rest

def joinComma : List String → String
  | [] => ""
  | [s] => s
  | s :: rest => s ++ ", " ++ joinComma rest

/-- Modelled from the spec: normalizing leading/trailing slashes before comparing a
path against templates written in `/.../` form. -/
def normalizeStr (p : String) : String := "/" ++ joinSlash (splitSegs p) ++ "/"

def levRowAux (x : Char) : List Char → Nat → List Nat → List Nat
  | [], _, _ => []
  | y :: ys, last, dPrev :: dCur :: dRest =>
    let n := min (dCur + 1) (min (last + 1) (dPrev + (if x == y then 0 else 1)))
    n :: levRowAux x ys n (dCur :: dRest)
  | _ :: _, _, _ => []

def levRow (x : Char) (ys : List Char) (oldRow : List Nat) : List Nat :=
  let first := oldRow.headD 0 + 1
  first :: levRowAux x ys first oldRow

/-- The Levenshtein edit distance between two strings, by the standard row-by-row
dynamic programming recurrence. -/
def editDistance (a b : String) : Nat :=
  (a.data.foldl (fun row x => levRow x b.data row) (List.range (b.data.length + 1))).getLastD 0

/-- Modelled from the spec: a known template is a near-miss suggestion candidate for
an input when the edit distance from the normalized input to the template is at most
half the template's length. -/
def isNearMiss (path template : String) : Bool :=
  editDistance (normalizeStr path) template * 2 ≤ template.length

/-- The failure outcomes of `resolve_path`: a bare failure, or a failure carrying
near-miss suggestions. -/
inductive ResolveError where
  | couldNotResolve (path : String)
  | didYouMean (path : String) (suggestions : List String)

/-- The message of the `ValueError` the resolver raises. -/
def renderResolveError : ResolveError → String
  | ResolveError.couldNotResolve p => "Could not resolve path `" ++ p ++ "`"
  | ResolveError.didYouMean p sugg =>
    "Could not resolve path `" ++ p ++ "`. " ++ "Did you mean one of these?" ++
      (" " ++ joinComma sugg)

/-- Modelled from the spec: `resolve_path` tries an exact structural match against
each templated key and on failure computes the edit-distance-based suggestion list,
failing with one error or the other depending on whether candidates exist. -/
def resolve_path (templates : List String) (path : String) : Except ResolveError String :=
  match templates.find? (fun t => pathMatches t path) with
  | Option.some t => Except.ok t
  | Option.none =>
    match templates.filter (fun t => isNearMiss path t) with
    | [] => Except.error (ResolveError.couldNotResolve path)
    | sugg => Except.error (ResolveError.didYouMean path sugg)

/-- The templated paths of the demo schema used by the tests. -/
def testPaths : List String :=
  ["/api/v1/cars/correct/", "/api/v1/trucks/correct/",
   "/api/v1/cars/incorrect/", "/api/v1/trucks/incorrect/"]

/-- Removing one leading slash, producing the test inputs `path[1:]`. -/
def stripLeadingSlash (s : String) : String :=
  match s.data with
  | [] => s
  | c :: rest => if c = '/' then String.mk rest else s

/-- Removing one trailing slash, producing the test inputs `path[:-1]`. -/
def stripTrailingSlash (s : String) : String :=
  match s.data.getLast? with
  | Option.none => s
  | Option.some c => if c = '/' then String.mk s.data.dropLast else s

theorem splitSegsAux_append_slash (xs acc : List Char) :
    splitSegsAux (xs ++ ['/']) acc = splitSegsAux xs acc := by
  induction xs generalizing acc with
  | nil => by_cases h : acc.isEmpty <;> simp [splitSegsAux, h]
  | cons c rest ih =>
    simp only [List.cons_append, splitSegsAux]
    split_ifs <;> simp [ih]

theorem splitSegs_stripLeadingSlash (s : String) :
    splitSegs (stripLeadingSlash s) = splitSegs s := by
  unfold stripLeadingSlash
  cases hd : s.data with
  | nil => rfl
  | cons c rest =>
    by_cases hc : c = '/'
    · simp only [hc, if_pos rfl]
      unfold splitSegs
      rw [hd]
      simp [splitSegsAux, hc]
    · simp [hc]

theorem splitSegs_stripTrailingSlash (s : String) :
    splitSegs (stripTrailingSlash s) = splitSegs s := by
  unfold stripTrailingSlash
  cases hd : s.data.getLast? with
  | none => rfl
  | some c =>
    by_cases hc : c = '/'
    · subst hc
      simp only [if_pos rfl]
      have hne : s.data ≠ [] := by
        intro hcon
        rw [hcon] at hd
        simp at hd
      have hlast : s.data.getLast hne = '/' := by
        have := List.getLast?_eq_getLast s.data hne
        rw [hd] at this
        injection this with h
        exact h.symm
      have hdecomp : s.data.dropLast ++ ['/'] = s.data := by
        rw [← hlast]
        exact List.dropLast_append_getLast hne
      unfold splitSegs
      conv_rhs => rw [← hdecomp]
      rw [splitSegsAux_append_slash]
      simp
    · simp [hc]

theorem pathMatches_congr (t p q : String) (h : splitSegs p = splitSegs q) :
    pathMatches t p = pathMatches t q := by
  simp [pathMatches, h]

/-- Modelled from the spec: an exact un-parameterized instance of a templated path
replaces each parameter segment by some concrete segment and keeps every other
segment verbatim. -/
def isInstanceOf (template inst : String) : Bool :=
  (splitSegs template).length == (splitSegs inst).length &&
  ((splitSegs template).zip (splitSegs inst)).all
    (fun q => if isParamSeg q.1 then true else q.1 == q.2)

theorem isInstanceOf_pathMatches (t p : String) (h : isInstanceOf t p = true) :
    pathMatches t p = true := by
  simp only [isInstanceOf, Bool.and_eq_true, List.all_eq_true] at h
  obtain ⟨h1, h2⟩ := h
  simp only [pathMatches, Bool.and_eq_true, List.all_eq_true]
  refine ⟨h1, fun q hq => ?_⟩
  have hh := h2 q hq
  simp only [segMatch, Bool.or_eq_true]
  by_cases hp : isParamSeg q.1 = true
  · exact Or.inl hp
  · right
    rw [if_neg hp] at hh
    exact hh

theorem resolve_path_isOk (templates : List String) (path t : String)
    (hmem : t ∈ templates) (hmatch : pathMatches t path = true) :
    ∃ a, resolve_path templates path = Except.ok a := by
  unfold resolve_path
  cases hfind : templates.find? (fun u => pathMatches u path) with
  | some u => exact ⟨u, rfl⟩
  | none =>
    exfalso
    have := List.find?_eq_none.mp hfind t hmem
    exact this hmatch

theorem listPrefixEq_self_append (xs ys : List Char) : listPrefixEq xs (xs ++ ys) = true := by
  induction xs with
  | nil => rfl
  | cons c rest ih => simp [listPrefixEq, ih]

theorem hasSubList_self_append (n rest : List Char) : hasSubList n (n ++ rest) = true := by
  cases hn : n ++ rest with
  | nil =>
    have : n = [] := (List.append_eq_nil.mp hn).1
    simp [this, hasSubList, List.isEmpty]
  | cons c cs =>
    rw [hasSubList, ← hn, listPrefixEq_self_append]
    simp

theorem hasSubList_cons_of (n hay : List Char) (c : Char) (h : hasSubList n hay = true) :
    hasSubList n (c :: hay) = true := by
  simp [hasSubList, h]

theorem hasSubList_append_left (a n rest : List Char) :
    hasSubList n (a ++ (n ++ rest)) = true := by
  induction a with
  | nil => simpa using hasSubList_self_append n rest
  | cons c cs ih => simpa using hasSubList_cons_of _ _ c (by simpa using ih)

/-! ### Claim theorems: path resolver (C3, C4, C5) -/

/-- C3: for every templated path declared in the schema, resolving any exact
un-parameterized instance of it succeeds, and still succeeds when the instance is
missing its leading slash or its trailing slash. -/
theorem c3_resolve_instances (templates : List String) (t inst : String)
    (hmem : t ∈ templates) (hinst : isInstanceOf t inst = true) :
    (∃ a, resolve_path templates inst = Except.ok a) ∧
    (∃ a, resolve_path templates (stripLeadingSlash inst) = Except.ok a) ∧
    (∃ a, resolve_path templates (stripTrailingSlash inst) = Except.ok a) := by
  have hmatch := isInstanceOf_pathMatches t inst hinst
  refine ⟨resolve_path_isOk templates inst t hmem hmatch,
    resolve_path_isOk templates _ t hmem ?_, resolve_path_isOk templates _ t hmem ?_⟩
  · rw [pathMatches_congr t _ inst (splitSegs_stripLeadingSlash inst)]
    exact hmatch
  · rw [pathMatches_congr t _ inst (splitSegs_stripTrailingSlash inst)]
    exact hmatch

/-- C3 witness: the four concrete test paths are templates of the demo schema and
their own instances; resolution succeeds for each, with and without the leading and
trailing slash. -/
theorem c3_witness :
    (∃ a, resolve_path testPaths "/api/v1/cars/correct/" = Except.ok a) ∧
    (∃ a, resolve_path testPaths (stripLeadingSlash "/api/v1/cars/correct/") = Except.ok a) ∧
    (∃ a, resolve_path testPaths (stripTrailingSlash "/api/v1/cars/correct/") = Except.ok a) :=
  c3_resolve_instances testPaths "/api/v1/cars/correct/" "/api/v1/cars/correct/"
    (by decide) (by decide)

/-- C4: when resolution fails but a known template is a near-miss of the input by
edit distance, `resolve_path` raises the suggestions error: its message contains
"Did you mean one of these?" and its suggestion list includes that near-miss. -/
theorem c4_near_miss_suggestions (templates : List String) (path t : String)
    (hfail : ∀ u ∈ templates, pathMatches u path = false)
    (hmem : t ∈ templates) (hnear : isNearMiss path t = true) :
    ∃ sugg, resolve_path templates path = Except.error (ResolveError.didYouMean path sugg) ∧
      t ∈ sugg ∧
      strContains (renderResolveError (ResolveError.didYouMean path sugg))
        "Did you mean one of these?" = true := by
  have hfind : templates.find? (fun u => pathMatches u path) = Option.none :=
    List.find?_eq_none.mpr (fun u hu => by simp [hfail u hu])
  have hmemf : t ∈ templates.filter (fun u => isNearMiss path u) :=
    List.mem_filter.mpr ⟨hmem, hnear⟩
  unfold resolve_path
  rw [hfind]
  cases hf : templates.filter (fun u => isNearMiss path u) with
  | nil => rw [hf] at hmemf; simp at hmemf
  | cons a as =>
    refine ⟨a :: as, rfl, by rw [hf] at hmemf; exact hmemf, ?_⟩
    show hasSubList ("Did you mean one of these?".data)
      (renderResolveError (ResolveError.didYouMean path (a :: as))).data = true
    have hdata : (renderResolveError (ResolveError.didYouMean path (a :: as))).data =
        ("Could not resolve path `" ++ path ++ "`. ").data ++
          ("Did you mean one of these?".data ++ (" " ++ joinComma (a :: as)).data) := by
      simp [renderResolveError]
    rw [hdata]
    exact hasSubList_append_left _ _ _

/-- C4 witness: the test input `trucks/correct` fails to resolve against the demo
schema paths, is a near-miss of `/api/v1/trucks/correct/`, and the raised error
carries the suggestion. -/
theorem c4_witness :
    ∃ sugg, resolve_path testPaths "trucks/correct" =
        Except.error (ResolveError.didYouMean "trucks/correct" sugg) ∧
      "/api/v1/trucks/correct/" ∈ sugg ∧
      strContains (renderResolveError (ResolveError.didYouMean "trucks/correct" sugg))
        "Did you mean one of these?" = true :=
  c4_near_miss_suggestions testPaths "trucks/correct" "/api/v1/trucks/correct/"
    (by decide) (by decide) (by decide)

/-- C5: when resolution fails and no known template is an edit-distance near-miss of
the input, `resolve_path` raises the bare error: its message contains
"Could not resolve path" and it carries no suggestions. -/
theorem c5_no_suggestions (templates : List String) (path : String)
    (hfail : ∀ u ∈ templates, pathMatches u path = false)
    (hnone : ∀ u ∈ templates, isNearMiss path u = false) :
    resolve_path templates path = Except.error (ResolveError.couldNotResolve path) ∧
    strContains (renderResolveError (ResolveError.couldNotResolve path))
      "Could not resolve path" = true := by
  have hfind : templates.find? (fun u => pathMatches u path) = Option.none :=
    List.find?_eq_none.mpr (fun u hu => by simp [hfail u hu])
  have hfilter : templates.filter (fun u => isNearMiss path u) = [] :=
    List.filter_eq_nil_iff.mpr (fun u hu => by simp [hnone u hu])
  constructor
  · unfold resolve_path
    rw [hfind, hfilter]
  · show hasSubList ("Could not resolve path".data)
      (renderResolveError (ResolveError.couldNotResolve path)).data = true
    have hdata : (renderResolveError (ResolveError.couldNotResolve path)).data =
        "Could not resolve path".data ++ ((" `" ++ path ++ "`").data) := by
      simp [renderResolveError]
    rw [hdata]
    exact hasSubList_self_append _ _

/-- C5 witness: the test input `this is not a path` resolves to the bare error with
no suggestions against the demo schema paths. -/
theorem c5_witness :
    resolve_path testPaths "this is not a path" =
        Except.error (ResolveError.couldNotResolve "this is not a path") ∧
      strContains (renderResolveError (ResolveError.couldNotResolve "this is not a path"))
        "Could not resolve path" = true :=
  c5_no_suggestions testPaths "this is not a path" (by decide) (by decide)

/-! ### Case checker (spec 4.2).
The module defining the case check is not among the provided sources, so it is
modelled from the spec. -/

/-- Modelled from the spec: the case check on one JSON object key — it passes when
the key satisfies the configured case-convention predicate or appears in the
configured whitelist, and fails otherwise. -/
def caseCheck (pred : String → Bool) (whitelist : List String) (key : String) : Bool :=
  pred key || whitelist.contains key

/-- C6: the case check fails if and only if the key does not satisfy the configured
predicate and is not present in the whitelist; the check is a pure predicate of its
three inputs. -/
theorem c6_case_check (pred : String → Bool) (whitelist : List String) (key : String) :
    caseCheck pred whitelist key = false ↔
      (pred key = false ∧ whitelist.contains key = false) := by
  simp [caseCheck]

/-! ### Schema/response comparator (spec 3 and 4.3).
The module defining the comparator is not among the provided sources, so it is
modelled from the spec: a recursive walk of a schema fragment and a payload in
parallel, failing fast with the path of the first mismatch.  To make the
no-mutation invariant of C7 expressible, the comparator is written in
state-passing style: every call returns, next to its verdict, the schema
fragment and payload value it worked on, rebuilt from the recursive calls. -/

/-- A scalar JSON value usable as an `enum` member. -/
inductive Prim where
  | pbool (b : Bool)
  | pint (n : Int)
  | pstr (s : String)
deriving DecidableEq

/-- A runtime JSON payload value. -/
inductive Json where
  | null
  | jbool (b : Bool)
  | jint (n : Int)
  | jstr (s : String)
  | jarr (elems : List Json)
  | jobj (fields : List (String × Json))

/-- The scalar types of spec 4.3. -/
inductive SchemaType where
  | string
  | integer
  | number
  | boolean
deriving DecidableEq

/-- A schema fragment: object with properties/required/additionalProperties, array
with an items schema, or scalar with optional enum and a nullable flag. -/
inductive Schema where
  | obj (properties : List (String × Schema)) (required : List String)
      (additionalProperties : Bool)
  | arr (items : Schema)
  | scalar (t : SchemaType) (enum : Option (List Prim)) (nullable : Bool)

/-- A comparison failure: the dotted/bracketed path of the first mismatch, the
expected constraint and the actual shape found. -/
structure Mismatch where
  path : String
  expected : String
  actual : String

def jsonKindName : Json → String
  | Json.null => "null"
  | Json.jbool _ => "boolean"
  | Json.jint _ => "integer"
  | Json.jstr _ => "string"
  | Json.jarr _ => "array"
  | Json.jobj _ => "object"

def jsonPrim : Json → Option Prim
  | Json.jbool b => Option.some (Prim.pbool b)
  | Json.jint n => Option.some (Prim.pint n)
  | Json.jstr s => Option.some (Prim.pstr s)
  | _ => Option.none

def scalarTypeMatches : SchemaType → Json → Bool
  | SchemaType.string, Json.jstr _ => true
  | SchemaType.integer, Json.jint _ => true
  | SchemaType.number, Json.jint _ => true
  | SchemaType.boolean, Json.jbool _ => true
  | _, _ => false

/-- Scalar comparison per spec 4.3: the type must match, an enum value must be a
member, and null is only allowed when nullable. -/
def validateScalar (t : SchemaType) (e : Option (List Prim)) (nullable : Bool)
    (v : Json) (path : String) : Except Mismatch Unit :=
  match v with
  | Json.null =>
    if nullable then Except.ok ()
    else Except.error ⟨path, "a non-null value", "null"⟩
  | _ =>
    if !scalarTypeMatches t v then
      Except.error ⟨path, "a value of the scalar schema type", jsonKindName v⟩
    else
      match e with
      | Option.none => Except.ok ()
      | Option.some ps =>
        match jsonPrim v with
        | Option.some p =>
          if ps.contains p then Except.ok ()
          else Except.error ⟨path, "a member of the enum", jsonKindName v⟩
        | Option.none => Except.error ⟨path, "a member of the enum", jsonKindName v⟩

def lookupField : List (String × Json) → String → Option Json
  | [], _ => Option.none
  | (k, v) :: rest, key => if k = key then Option.some v else lookupField rest key

def lookupProp : List (String × Schema) → String → Option Schema
  | [], _ => Option.none
  | (k, s) :: rest, key => if k = key then Option.some s else lookupProp rest key

def updateFirstProp : List (String × Schema) → String → Schema → List (String × Schema)
  | [], _, _ => []
  | (k, s) :: rest, key, sNew =>
    if k = key then (k, sNew) :: rest else (k, s) :: updateFirstProp rest key sNew

theorem updateFirstProp_lookup (props : List (String × Schema)) (k : String) (sub : Schema)
    (h : lookupProp props k = Option.some sub) : updateFirstProp props k sub = props := by
  induction props with
  | nil => simp [lookupProp] at h
  | cons kv rest ih =>
    obtain ⟨k', s'⟩ := kv
    simp only [lookupProp] at h
    simp only [updateFirstProp]
    split_ifs at h ⊢ with hk
    · injection h with h
      rw [h]
    · rw [ih h]

mutual

/-- The comparator of spec 4.3 in state-passing style: returns the verdict together
with the schema fragment and payload value, rebuilt from the recursive calls. -/
def compareSt : Schema → Json → String → (Except Mismatch Unit) × Schema × Json
  | Schema.obj props req addl, Json.jobj fields, path =>
    match req.find? (fun k => (lookupField fields k).isNone) with
    | Option.some k =>
      (Except.error ⟨path ++ "." ++ k, "the required property to be present", "missing"⟩,
        Schema.obj props req addl, Json.jobj fields)
    | Option.none =>
      match walkFields props addl fields path with
      | (res, props2, fields2) => (res, Schema.obj props2 req addl, Json.jobj fields2)
  | Schema.arr items, Json.jarr elems, path =>
    match walkElems items elems path 0 with
    | (res, items2, elems2) => (res, Schema.arr items2, Json.jarr elems2)
  | Schema.scalar t e nullable, v, path =>
    (validateScalar t e nullable v path, Schema.scalar t e nullable, v)
  | Schema.obj props req addl, v, path =>
    (Except.error ⟨path, "an object", jsonKindName v⟩, Schema.obj props req addl, v)
  | Schema.arr items, v, path =>
    (Except.error ⟨path, "an array", jsonKindName v⟩, Schema.arr items, v)
termination_by s v path => sizeOf v
decreasing_by all_goals (simp_wf; try omega)

/-- Walks the payload's keys: each key must be a schema property (recursing into it)
or be allowed by additionalProperties; fail-fast on the first mismatch. -/
def walkFields : List (String × Schema) → Bool → List (String × Json) → String →
    (Except Mismatch Unit) × List (String × Schema) × List (String × Json)
  | props, _, [], _ => (Except.ok (), props, [])
  | props, addl, (k, v) :: rest, path =>
    match lookupProp props k with
    | Option.some sub =>
      match compareSt sub v (path ++ "." ++ k) with
      | (Except.error e, sub2, v2) =>
        (Except.error e, updateFirstProp props k sub2, (k, v2) :: rest)
      | (Except.ok _, sub2, v2) =>
        match walkFields (updateFirstProp props k sub2) addl rest path with
        | (res2, props2, rest2) => (res2, props2, (k, v2) :: rest2)
    | Option.none =>
      if addl then
        match walkFields props addl rest path with
        | (res2, props2, rest2) => (res2, props2, (k, v) :: rest2)
      else
        (Except.error ⟨path ++ "." ++ k, "a property declared in the schema",
          "an undeclared key"⟩, props, (k, v) :: rest)
termination_by props addl fs path => sizeOf fs
decreasing_by all_goals (simp_wf; try omega)

/-- Recurses the items schema against every array element, fail-fast. -/
def walkElems : Schema → List Json → String → Nat →
    (Except Mismatch Unit) × Schema × List Json
  | items, [], _, _ => (Except.ok (), items, [])
  | items, v :: rest, path, i =>
    match compareSt items v (path ++ "[" ++ toString i ++ "]") with
    | (Except.error e, items2, v2) => (Except.error e, items2, v2 :: rest)
    | (Except.ok _, items2, v2) =>
      match walkElems items2 rest path (i + 1) with
      | (res2, items3, rest2) => (res2, items3, v2 :: rest2)
termination_by items vs path i => sizeOf vs
decreasing_by all_goals (simp_wf; try omega)

end

mutual

theorem compareSt_frame (s : Schema) (v : Json) (p : String) :
    (compareSt s v p).2 = (s, v) := by
  cases s with
  | obj props req addl =>
    cases v with
    | jobj fields =>
      simp only [compareSt]
      cases hreq : req.find? (fun k => (lookupField fields k).isNone) with
      | some k => simp
      | none =>
        rcases hw : walkFields props addl fields p with ⟨res, props2, fields2⟩
        have hfr := walkFields_frame props addl fields p
        rw [hw] at hfr
        simp only [Prod.mk.injEq] at hfr
        obtain ⟨h1, h2⟩ := hfr
        simp [hw, h1, h2]
    | null => simp [compareSt]
    | jbool b => simp [compareSt]
    | jint n => simp [compareSt]
    | jstr s => simp [compareSt]
    | jarr elems => simp [compareSt]
  | arr items =>
    cases v with
    | jarr elems =>
      simp only [compareSt]
      rcases hw : walkElems items elems p 0 with ⟨res, items2, elems2⟩
      have hfr := walkElems_frame items elems p 0
      rw [hw] at hfr
      simp only [Prod.mk.injEq] at hfr
      obtain ⟨h1, h2⟩ := hfr
      simp [hw, h1, h2]
    | null => simp [compareSt]
    | jbool b => simp [compareSt]
    | jint n => simp [compareSt]
    | jstr s => simp [compareSt]
    | jobj fields => simp [compareSt]
  | scalar t e nb => simp [compareSt]
termination_by sizeOf v
decreasing_by all_goals (simp_wf; try omega)

theorem walkFields_frame (props : List (String × Schema)) (addl : Bool)
    (fs : List (String × Json)) (p : String) :
    (walkFields props addl fs p).2 = (props, fs) := by
  cases fs with
  | nil => simp [walkFields]
  | cons kv rest =>
    obtain ⟨k, v⟩ := kv
    simp only [walkFields]
    cases hlp : lookupProp props k with
    | some sub =>
      rcases hc : compareSt sub v (p ++ "." ++ k) with ⟨res, sub2, v2⟩
      have hfr := compareSt_frame sub v (p ++ "." ++ k)
      rw [hc] at hfr
      simp only [Prod.mk.injEq] at hfr
      obtain ⟨h1, h2⟩ := hfr
      rw [h1, h2] at hc
      have hupd : updateFirstProp props k sub = props :=
        updateFirstProp_lookup props k sub hlp
      cases res with
      | error e => simp [hc, hupd]
      | ok u =>
        rcases hw : walkFields props addl rest p with ⟨res2, props2, rest2⟩
        have hfr2 := walkFields_frame props addl rest p
        rw [hw] at hfr2
        simp only [Prod.mk.injEq] at hfr2
        obtain ⟨h3, h4⟩ := hfr2
        simp [hc, hupd, hw, h3, h4]
    | none =>
      cases addl with
      | true =>
        rcases hw : walkFields props true rest p with ⟨res2, props2, rest2⟩
        have hfr2 := walkFields_frame props true rest p
        rw [hw] at hfr2
        simp only [Prod.mk.injEq] at hfr2
        obtain ⟨h3, h4⟩ := hfr2
        simp [hw, h3, h4]
      | false => simp
termination_by sizeOf fs
decreasing_by all_goals (simp_wf; try omega)

theorem walkElems_frame (items : Schema) (vs : List Json) (p : String) (i : Nat) :
    (walkElems items vs p i).2 = (items, vs) := by
  cases vs with
  | nil => simp [walkElems]
  | cons v rest =>
    simp only [walkElems]
    rcases hc : compareSt items v (p ++ "[" ++ toString i ++ "]") with ⟨res, items2, v2⟩
    have hfr := compareSt_frame items v (p ++ "[" ++ toString i ++ "]")
    rw [hc] at hfr
    simp only [Prod.mk.injEq] at hfr
    obtain ⟨h1, h2⟩ := hfr
    rw [h1, h2] at hc
    cases res with
    | error e => simp [hc, h1, h2]
    | ok u =>
      rcases hw : walkElems items rest p (i + 1) with ⟨res2, items3, rest2⟩
      have hfr2 := walkElems_frame items rest p (i + 1)
      rw [hw] at hfr2
      simp only [Prod.mk.injEq] at hfr2
      obtain ⟨h3, h4⟩ := hfr2
      simp [hc, hw, h1, h2, h3, h4]
termination_by sizeOf vs
decreasing_by all_goals (simp_wf; try omega)

end

/-- C7: one comparison call never mutates the schema fragment or the payload: the
state components the state-passing comparator returns are equal to its inputs, for
every schema, payload and path, whether the verdict is success or a mismatch. -/
theorem c7_comparator_no_mutation (s : Schema) (v : Json) (p : String) :
    (compareSt s v p).2.1 = s ∧ (compareSt s v p).2.2 = v := by
  have h := compareSt_frame s v p
  exact ⟨by rw [h], by rw [h]⟩

example :
    (compareSt
      (Schema.obj [("name", Schema.scalar SchemaType.string Option.none false),
                   ("age", Schema.scalar SchemaType.integer Option.none false)]
        ["name", "age"] false)
      (Json.jobj [("name", Json.jstr "x")]) "response").1 =
      Except.error ⟨"response.age", "the required property to be present", "missing"⟩ := by
  simp [compareSt, lookupField]
